import Mathlib

/-!
Shallow embedding of the exercise-analysis core of this repository:
the angle engine and moving-average smoother, the fixed-exercise
analyzer state machine (`api_server.py`), and the template-driven
biomechanics coach (`biomechanics.py`).  Floating-point numbers are
modelled as real numbers; a numpy NaN (which the source code can
produce from a zero-magnitude vector, and which compares false to
everything) is modelled as `Option.none` with comparison helpers that
are false on `none`.
-/

noncomputable section

namespace Entrainement

/-- A pose landmark: normalized x/y position plus visibility. -/
structure Landmark where
  x : ℝ
  y : ℝ
  vis : ℝ

/-- A landmark map (Python dict keyed by joint-name string). -/
def Lm : Type := List (String × Landmark)

/-- Dictionary lookup, `lm.get(k)`. -/
def lmLookup (lm : Lm) (k : String) : Option Landmark :=
  List.lookup k lm

/-- Python `k in lm`. -/
def lmMem (lm : Lm) (k : String) : Prop :=
  (lmLookup lm k).isSome = true

instance (lm : Lm) (k : String) : Decidable (lmMem lm k) := by
  unfold lmMem; infer_instance

/-- Python `lm.get(k, {'x': 0, 'y': 0, 'vis': 0})`. -/
def lmGetD (lm : Lm) (k : String) : Landmark :=
  (lmLookup lm k).getD ⟨0, 0, 0⟩

/-- Python `lm.get(k, {}).get('vis', 0)` / `lm.get(k, {'vis': 0})['vis']`. -/
def visOr0 (lm : Lm) (k : String) : ℝ :=
  (lmGetD lm k).vis

/-- ASCII uppercase of one character. -/
def upChar (c : Char) : Char :=
  if c.isLower then Char.ofNat (c.toNat - 32) else c

/-- Python `str.upper()`; ASCII uppercase coincides with it on every
joint-name and side string the source applies it to. -/
def upperStr (s : String) : String :=
  String.mk (s.data.map upChar)

/-- Radians to degrees, `math.degrees` / `np.degrees`. -/
def degrees (x : ℝ) : ℝ := x * 180 / Real.pi

/-- Angle engine of `api_server.py` (`get_angle`): the clamped arccos of
the cosine between the vectors a-b and c-b; the bare `except` clause
turns the `ZeroDivisionError` raised when either vector has zero
magnitude into the fallback value 180. -/
def get_angle (a b c : Landmark) : ℝ :=
  let bax := a.x - b.x
  let bay := a.y - b.y
  let bcx := c.x - b.x
  let bcy := c.y - b.y
  let dot := bax * bcx + bay * bcy
  let magA := Real.sqrt (bax ^ 2 + bay ^ 2)
  let magC := Real.sqrt (bcx ^ 2 + bcy ^ 2)
  if magA * magC = 0 then 180
  else degrees (Real.arccos (max (-1) (min 1 (dot / (magA * magC)))))

/-- Angle computation of `biomechanics.py`
(`BiomechanicsCoach._calculate_angle`): same clamped arccos, but with
no exception handler; division of a zero dot product by a zero
magnitude product yields a numpy NaN, modelled as `none`. -/
def calc_angle (a b c : Landmark) : Option ℝ :=
  let bax := a.x - b.x
  let bay := a.y - b.y
  let bcx := c.x - b.x
  let bcy := c.y - b.y
  let dot := bax * bcx + bay * bcy
  let magA := Real.sqrt (bax ^ 2 + bay ^ 2)
  let magC := Real.sqrt (bcx ^ 2 + bcy ^ 2)
  if magA * magC = 0 then none
  else some (degrees (Real.arccos (min 1 (max (-1) (dot / (magA * magC))))))

/-- Python/numpy comparison `angle <= y` where `angle` may be NaN
(`none`); NaN comparisons are false. -/
def oLE (x : Option ℝ) (y : ℝ) : Prop :=
  match x with
  | none => False
  | some v => v ≤ y

/-- Python/numpy comparison `angle >= y` with NaN false. -/
def oGE (x : Option ℝ) (y : ℝ) : Prop :=
  match x with
  | none => False
  | some v => y ≤ v

/-- Python/numpy comparison `angle > y` with NaN false. -/
def oGT (x : Option ℝ) (y : ℝ) : Prop :=
  match x with
  | none => False
  | some v => y < v

/-- Python/numpy comparison `angle < y` with NaN false. -/
def oLT (x : Option ℝ) (y : ℝ) : Prop :=
  match x with
  | none => False
  | some v => v < y

/-- Python `abs(angle - target) > max_dev` with NaN false. -/
def oDev (x : Option ℝ) (target maxDev : ℝ) : Prop :=
  match x with
  | none => False
  | some v => maxDev < |v - target|

instance (x : Option ℝ) (y : ℝ) : Decidable (oLE x y) := by
  unfold oLE; cases x <;> infer_instance

instance (x : Option ℝ) (y : ℝ) : Decidable (oGE x y) := by
  unfold oGE; cases x <;> infer_instance

instance (x : Option ℝ) (y : ℝ) : Decidable (oGT x y) := by
  unfold oGT; cases x <;> infer_instance

instance (x : Option ℝ) (y : ℝ) : Decidable (oLT x y) := by
  unfold oLT; cases x <;> infer_instance

instance (x : Option ℝ) (t d : ℝ) : Decidable (oDev x t d) := by
  unfold oDev; cases x <;> infer_instance

/-- Append to a `collections.deque` with `maxlen = n`: the oldest
sample is evicted once the buffer exceeds capacity. -/
def pushWin {α : Type} (n : ℕ) (w : List α) (x : α) : List α :=
  let w1 := w ++ [x]
  if w1.length ≤ n then w1 else w1.drop (w1.length - n)

/-- `np.mean` of a buffer. -/
def listMean (w : List ℝ) : ℝ := w.sum / w.length

/-- Minimum of a nonempty list (0 for the empty list, never used). -/
def listMin : List ℝ → ℝ
  | [] => 0
  | x :: l => l.foldl min x

/-- Maximum of a nonempty list (0 for the empty list, never used). -/
def listMax : List ℝ → ℝ
  | [] => 0
  | x :: l => l.foldl max x

/-- Python `round(x, 1)`: round to one decimal place. -/
def round1 (x : ℝ) : ℝ := (round (x * 10) : ℤ) / 10

/-! ### AngleSmoother (`api_server.py`) -/

/-- `SMOOTHING_WINDOW` constant of `api_server.py`. -/
def SMOOTHING_WINDOW : ℕ := 7

/-- `HYSTERESIS_BUFFER` constant of `api_server.py`. -/
def HYSTERESIS_BUFFER : ℝ := 5

/-- `AngleSmoother.smooth`: append to the bounded window and return the
mean of the current contents, together with the updated window. -/
def smoothStep (n : ℕ) (w : List ℝ) (x : ℝ) : ℝ × List ℝ :=
  let w1 := pushWin n w x
  (listMean w1, w1)

/-- Window contents after feeding a whole input stream to a freshly
constructed smoother. -/
def smootherRun (n : ℕ) (xs : List ℝ) : List ℝ :=
  xs.foldl (fun w x => (smoothStep n w x).2) []

/-- `AngleSmoother.reset`: clear the window. -/
def smootherReset (_w : List ℝ) : List ℝ := []

/-! ### Fixed-exercise analyzer (`ExerciseAnalyzer` in `api_server.py`) -/

/-- Rep phase of the fixed-exercise analyzer (`self.phase`). -/
inductive Phase where
  | up
  | down
deriving DecidableEq, Repr

/-- BGR color tuple. -/
def Color : Type := ℕ × ℕ × ℕ

instance : DecidableEq Color := by
  unfold Color; infer_instance

/-- State of one `ExerciseAnalyzer`, configuration fields included
(the source keeps both on the same object). The joint chain always has
exactly three entries in every shipped configuration and is modelled as
a triple. -/
structure AState where
  chain1 : String
  chain2 : String
  chain3 : String
  th_down : ℝ
  th_up : ℝ
  th_excellent_min : ℝ
  th_excellent_max : ℝ
  th_too_deep : ℝ
  msg_excellent : String
  msg_good : String
  msg_deeper : String
  msg_too_deep : String
  phase : Phase
  reps : ℕ
  was_active : Bool
  status : String
  color : Color
  feedback_hold_frames : ℕ
  last_feedback : String
  window : List ℝ
  rep_quality : List ℝ
  current_rep_min_angle : ℝ

/-- Output record of `ExerciseAnalyzer.analyze`. -/
structure AOutput where
  reps : ℕ
  phase : Phase
  angle : ℝ
  status : String
  color : Color
  quality : Option ℝ

/-- `ExerciseAnalyzer._calculate_rep_quality`. -/
def calculate_rep_quality (s : AState) (min_angle : ℝ) : ℝ :=
  let excellent_mid := (s.th_excellent_min + s.th_excellent_max) / 2
  let distance := |min_angle - excellent_mid|
  if distance = 0 then 100
  else if min_angle ≤ s.th_excellent_max then max 80 (100 - distance * 2)
  else if min_angle ≤ s.th_down then max 60 (80 - distance)
  else max 30 (60 - distance)

/-- `ExerciseAnalyzer._get_average_quality`. -/
def get_average_quality (hist : List ℝ) : Option ℝ :=
  if hist = [] then none else some (round1 (listMean hist))

/-- Min-angle tracking of `ExerciseAnalyzer.analyze` (source lines
162-164): while in the down phase, fold the smoothed angle into the
running minimum. -/
def trackMin (s : AState) (angle : ℝ) : AState :=
  if s.phase = Phase.down then
    { s with current_rep_min_angle := min s.current_rep_min_angle angle }
  else s

/-- Hysteresis phase detection of `ExerciseAnalyzer.analyze` (source
lines 166-182): enter down below the down threshold; return to up
strictly above the up threshold plus the hysteresis buffer, counting
and scoring a rep when the down phase had been flagged active. -/
def transitionStep (s : AState) (angle : ℝ) : AState :=
  if angle < s.th_down ∧ s.phase = Phase.up then
    { s with phase := Phase.down, was_active := true,
             current_rep_min_angle := angle }
  else if s.th_up + HYSTERESIS_BUFFER < angle ∧ s.phase = Phase.down then
    (if s.was_active then
      { s with phase := Phase.up,
               reps := s.reps + 1,
               rep_quality := s.rep_quality ++
                 [calculate_rep_quality s s.current_rep_min_angle],
               was_active := false,
               current_rep_min_angle := 180,
               last_feedback := s.msg_good,
               feedback_hold_frames := 20 }
    else { s with phase := Phase.up })
  else s

/-- Feedback classification of `ExerciseAnalyzer.analyze` (source
lines 184-204): the post-rep hold window, then the four-tier
down-phase ladder, otherwise READY. -/
def feedbackStep (s : AState) (angle : ℝ) : AState :=
  if 0 < s.feedback_hold_frames then
    { s with feedback_hold_frames := s.feedback_hold_frames - 1,
             status := s.last_feedback, color := (0, 255, 0) }
  else if s.phase = Phase.down then
    (if angle ≤ s.th_too_deep then
      { s with status := s.msg_too_deep, color := (0, 165, 255) }
    else if angle ≤ s.th_excellent_max then
      { s with status := s.msg_excellent, color := (0, 255, 0) }
    else if angle ≤ s.th_down then
      { s with status := s.msg_good, color := (0, 255, 255) }
    else
      { s with status := s.msg_deeper, color := (0, 0, 255) })
  else
    { s with status := "READY", color := (255, 255, 255) }

/-- Body of `ExerciseAnalyzer.analyze` from the point where the
smoothed angle is available (source lines 162-213): min-angle
tracking, hysteresis phase detection, rep counting and quality
recording, feedback classification, output record. -/
def analyzeCore (s : AState) (angle : ℝ) : AOutput × AState :=
  let s3 := feedbackStep (transitionStep (trackMin s angle) angle) angle
  (⟨s3.reps, s3.phase, round1 angle, s3.status, s3.color,
    get_average_quality s3.rep_quality⟩, s3)

/-- Side selection of `ExerciseAnalyzer.analyze` (line 143): left when
the left knee is strictly more visible than the right knee. -/
def sideOf (lm : Lm) : String :=
  if visOr0 lm ("rightKnee") < visOr0 lm ("leftKnee") then "left" else "right"

/-- `ExerciseAnalyzer.analyze`: side selection by knee visibility,
membership check of the selected-side joint chain (the neutral
"POSITION YOURSELF" branch leaves the state untouched), raw angle via
`get_angle`, smoothing, then `analyzeCore`. -/
def analyze (s : AState) (lm : Lm) : AOutput × AState :=
  let side := sideOf lm
  let t1 := side ++ s.chain1
  let t2 := side ++ s.chain2
  let t3 := side ++ s.chain3
  if lmMem lm t1 ∧ lmMem lm t2 ∧ lmMem lm t3 then
    let raw := get_angle (lmGetD lm t1) (lmGetD lm t2) (lmGetD lm t3)
    let w1 := pushWin SMOOTHING_WINDOW s.window raw
    let angle := listMean w1
    analyzeCore { s with window := w1 } angle
  else
    (⟨s.reps, s.phase, 180, "POSITION YOURSELF", (100, 100, 100), none⟩, s)

/-- `ExerciseAnalyzer.reset`. -/
def analyzerReset (s : AState) : AState :=
  { s with phase := Phase.up, reps := 0, was_active := false,
           rep_quality := [], current_rep_min_angle := 180,
           window := [] }

/-- The analyzer built by `ExerciseAnalyzer.__init__` for the squat
configuration of `EXERCISE_CONFIGS`. -/
def squatAnalyzer : AState :=
  { chain1 := "Hip", chain2 := "Knee", chain3 := "Ankle",
    th_down := 110, th_up := 160,
    th_excellent_min := 90, th_excellent_max := 105, th_too_deep := 80,
    msg_excellent := "PERFECT DEPTH! 💪", msg_good := "GOOD FORM ✓",
    msg_deeper := "GO DEEPER ⬇️", msg_too_deep := "TOO LOW! ⚠️",
    phase := Phase.up, reps := 0, was_active := false,
    status := "READY", color := (255, 255, 255),
    feedback_hold_frames := 0, last_feedback := "READY",
    window := [], rep_quality := [], current_rep_min_angle := 180 }

/-- Run `analyzeCore` over a stream of transition-input angles,
collecting the phase after each call. -/
def phaseTrace (s : AState) (xs : List ℝ) : List Phase :=
  (xs.foldl (fun (acc : AState × List Phase) x =>
    let s2 := (analyzeCore acc.1 x).2
    (s2, acc.2 ++ [s2.phase])) (s, [])).2

/-- Final analyzer state after a stream of transition-input angles. -/
def coreRun (s : AState) (xs : List ℝ) : AState :=
  xs.foldl (fun st x => (analyzeCore st x).2) s

/-- Final analyzer state after a stream of landmark frames. -/
def analyzeRun (s : AState) (frames : List Lm) : AState :=
  frames.foldl (fun st lm => (analyze st lm).2) s

/-! ### Template-driven coach (`BiomechanicsCoach` in `biomechanics.py`) -/

/-- Rep stage of the coach (`self.stage`). -/
inductive Stage where
  | extended
  | flexed
deriving DecidableEq, Repr

/-- Data of the coach's `stability_feedback` string: either the
"Stability: OK" default or the formatted deviation message naming the
joint, its current angle and its target. -/
inductive StabFeedback where
  | ok
  | dev (joint : String) (angle : Option ℝ) (target : ℝ)

/-- Per-joint view-configuration entry (the fields of the template
dictionary that `process_form` reads). -/
structure JointCfg where
  ctype : Option String
  target : Option ℝ
  upright : Option ℝ
  max_deviation : Option ℝ

/-- Python `a or default` for an optional numeric config field, where
`None` and `0` are both falsy. -/
def pyOrR (a : Option ℝ) (d : ℝ) : ℝ :=
  match a with
  | none => d
  | some v => if v = 0 then d else v

/-- `pts_map_template` of `process_form`. -/
def ptsMap (joint : String) : Option (String × String × String) :=
  if joint = "elbow" then some ("shoulder", "elbow", "wrist")
  else if joint = "shoulder" then some ("hip", "shoulder", "elbow")
  else if joint = "hip" then some ("shoulder", "hip", "knee")
  else if joint = "knee" then some ("hip", "knee", "ankle")
  else if joint = "ankle" then some ("knee", "ankle", "footindex")
  else none

/-- Python dict assignment `d[k] = v` on an insertion-ordered dict. -/
def jcSet (l : List (String × Color)) (k : String) (v : Color) :
    List (String × Color) :=
  if (List.lookup k l).isSome then
    l.map (fun p => if p.1 = k then (k, v) else p)
  else l ++ [(k, v)]

/-- State of one `BiomechanicsCoach`, resolved configuration fields
included (the source keeps both on the same object). -/
structure CState where
  view_cfg : List (String × JointCfg)
  primary_joint_name : String
  rep_flex_threshold : ℝ
  rep_ext_threshold : ℝ
  min_visibility : ℝ
  reps : ℕ
  stage : Stage
  current_angle : Option ℝ
  feedback : String
  form_issue : String
  joint_colors : List (String × Color)
  stability_feedback : StabFeedback
  smoothing_buffer : List Bool
  last_bad_form_time : ℝ
  warning_duration : ℝ

/-- Accumulator of the per-frame joint loop of `process_form`. -/
structure LoopAcc where
  excellent : Bool
  colors : List (String × Color)
  issues : List String
  stab : StabFeedback
  paLeft : Option ℝ
  paRight : Option ℝ

/-- One iteration of the joint loop of `process_form` (one side, one
view-configuration entry): skip joints absent from the points map or
failing the visibility floor; compute the angle; record the primary
angle for this side; run the stability check; write the joint color. -/
def jointPass (s : CState) (lm : Lm) (side : String)
    (acc : LoopAcc) (e : String × JointCfg) : LoopAcc :=
  match ptsMap e.1 with
  | none => acc
  | some (p1, p2, p3) =>
    let a := lmGetD lm (side ++ p1)
    let b := lmGetD lm (side ++ p2)
    let c := lmGetD lm (side ++ p3)
    if a.vis < s.min_visibility ∨ b.vis < s.min_visibility ∨
        c.vis < s.min_visibility then acc
    else
      let angle := calc_angle a b c
      let acc1 :=
        if e.1 = s.primary_joint_name then
          (if side = "left" then { acc with paLeft := angle }
           else { acc with paRight := angle })
        else acc
      let target := pyOrR e.2.target (pyOrR e.2.upright 180)
      let maxDev := pyOrR e.2.max_deviation 15
      let key := upperStr side ++ "_" ++ upperStr e.1
      if e.2.ctype = some "stability" ∧ oDev angle target maxDev then
        { acc1 with excellent := false,
                    issues := acc1.issues ++ ["STABILIZE " ++ upperStr e.1],
                    stab := StabFeedback.dev e.1 angle target,
                    colors := jcSet acc1.colors key (0, 0, 255) }
      else
        { acc1 with colors := jcSet acc1.colors key (0, 255, 0) }

/-- The full joint loop: all view-configuration entries for the left
side, then for the right side, starting from the per-call defaults
(frame excellent, empty colors and issues, both primary angles 180). -/
def runLoop (s : CState) (lm : Lm) : LoopAcc :=
  let acc0 : LoopAcc := ⟨true, [], [], StabFeedback.ok, some 180, some 180⟩
  let acc1 := s.view_cfg.foldl (jointPass s lm ("left")) acc0
  s.view_cfg.foldl (jointPass s lm ("right")) acc1

/-- The primary-joint recoloring loop of `process_form` for one side:
keys absent from `joint_colors` are skipped; while form is not OK the
primary joint is red; otherwise green exactly when the side's angle is
within the 15-degree grace of either rep threshold. -/
def primaryRecolor (s : CState) (colors : List (String × Color))
    (side : String) (angle : Option ℝ) (formOk : Bool) :
    List (String × Color) :=
  let pk := upperStr side ++ "_" ++ upperStr s.primary_joint_name
  if (List.lookup pk colors).isSome then
    (if formOk = false then jcSet colors pk (0, 0, 255)
     else if oGE angle (s.rep_ext_threshold - 15) ∨
             oLE angle (s.rep_flex_threshold + 15) then
       jcSet colors pk (0, 255, 0)
     else jcSet colors pk (0, 0, 255))
  else colors

/-- Primary-side selection of `process_form` (source lines 78-83):
compare the two primary-joint visibilities when both keys are present,
otherwise fall back to comparing left/right elbow visibilities. -/
def primarySideOf (s : CState) (lm : Lm) : String :=
  match lmLookup lm ("left" ++ s.primary_joint_name),
        lmLookup lm ("right" ++ s.primary_joint_name) with
  | some la, some ra => if ra.vis ≤ la.vis then "left" else "right"
  | _, _ =>
    if visOr0 lm ("rightelbow") < visOr0 lm ("leftelbow") then "left"
    else "right"

/-- `form_ok` of `process_form` (source line 121): at least
`warning_duration` seconds since the last bad-form timestamp. -/
def formOkOf (s : CState) (ts : ℝ) : Bool :=
  if s.warning_duration ≤ ts - s.last_bad_form_time then true else false

/-- Mutations of `process_form` performed before the early return
(source lines 116-144): current angle, phase-relative feedback
overridden to FIX FORM while form is not OK, first issue, primary
recoloring, excellence buffer push, and the marking update of
`last_bad_form_time` when more than 30 percent of the window is
non-excellent.  The redundant re-assignment of `form_issue` inside the
marking branch writes the same first-issue value the feedback branch
already wrote, so `form_issue` is set once here. -/
def pfMid (s : CState) (ts : ℝ) (acc : LoopAcc) (current : Option ℝ)
    (formOk : Bool) : CState :=
  let fb1 :=
    if s.stage = Stage.extended then
      (if oGT current s.rep_flex_threshold then "GO FURTHER"
       else "GOOD DEPTH")
    else
      (if oLT current s.rep_ext_threshold then "FULL EXTENSION"
       else "GOOD EXTENSION")
  let fb2 := if formOk then fb1 else "FIX FORM"
  let issue1 := match acc.issues with | [] => "" | i :: _ => i
  let colors1 := primaryRecolor s acc.colors ("left") acc.paLeft formOk
  let colors2 := primaryRecolor s colors1 ("right") acc.paRight formOk
  let buf := pushWin 20 s.smoothing_buffer acc.excellent
  let lastBad2 :=
    if (20 : ℝ) * 0.3 < (buf.count false : ℕ) then ts
    else s.last_bad_form_time
  { s with current_angle := current, feedback := fb2,
           form_issue := issue1, joint_colors := colors2,
           stability_feedback := acc.stab,
           smoothing_buffer := buf,
           last_bad_form_time := lastBad2 }

/-- Rep transition block of `process_form` (source lines 145-154):
early return while form is not OK, otherwise enter flexed at or below
the flex threshold and complete a rep (back to extended, counter + 1)
at or above the extension threshold. -/
def pfTransitions (t : CState) (current : Option ℝ) (formOk : Bool) :
    CState :=
  if formOk = false then t
  else
    let sA :=
      if oLE current t.rep_flex_threshold ∧ t.stage = Stage.extended then
        { t with stage := Stage.flexed }
      else t
    if oGE current t.rep_ext_threshold ∧ sA.stage = Stage.flexed then
      { sA with stage := Stage.extended, reps := sA.reps + 1 }
    else sA

/-- `BiomechanicsCoach.process_form`. -/
def process_form (s : CState) (lm : Lm) (ts : ℝ) : CState :=
  let acc := runLoop s lm
  let current :=
    if primarySideOf s lm = "left" then acc.paLeft else acc.paRight
  let formOk := formOkOf s ts
  pfTransitions (pfMid s ts acc current formOk) current formOk

/-- The coach built by `BiomechanicsCoach.__init__` from resolved
template numbers: tightened rep thresholds, visibility floor 0.6,
initial stage extended with zero reps, empty excellence buffer,
`last_bad_form_time` 0 and `warning_duration` 2.0. -/
def mkCoach (primary : String) (cfg : List (String × JointCfg))
    (flexedTarget extendedTarget tolerance : ℝ) : CState :=
  { view_cfg := cfg, primary_joint_name := primary,
    rep_flex_threshold := flexedTarget + tolerance * 0.5,
    rep_ext_threshold := extendedTarget - tolerance * 0.5,
    min_visibility := 0.6,
    reps := 0, stage := Stage.extended, current_angle := some 180,
    feedback := "READY", form_issue := "",
    joint_colors := [], stability_feedback := StabFeedback.ok,
    smoothing_buffer := [], last_bad_form_time := 0,
    warning_duration := 2 }

/-- Final coach state after a stream of landmark frames with
timestamps. -/
def coachRun (s : CState) (frames : List (Lm × ℝ)) : CState :=
  frames.foldl (fun st f => process_form st f.1 f.2) s

/-! ### Reference definitions written from the spec's words, and
concrete scenario data used by the theorems below -/

/-- Reference formula, following the spec's words for the simple
hysteresis transition rule: enter DOWN when `angle < downThreshold`
while in UP; re-enter UP when `angle > upThreshold + hysteresisBuffer`
while in DOWN. -/
def hystStepSpec (phase : Phase) (down up buffer angle : ℝ) : Phase :=
  if angle < down ∧ phase = Phase.up then Phase.down
  else if up + buffer < angle ∧ phase = Phase.down then Phase.up
  else phase

/-- Reference formula, following the spec's words for the quality
score: distance from the excellent midpoint, then the three-branch
clamped ladder. -/
def qualitySpec (s : AState) (minAngle : ℝ) : ℝ :=
  let mid := (s.th_excellent_min + s.th_excellent_max) / 2
  let distance := |minAngle - mid|
  if minAngle ≤ s.th_excellent_max then max 80 (100 - 2 * distance)
  else if minAngle ≤ s.th_down then max 60 (80 - distance)
  else max 30 (60 - distance)

/-- The smoothed-angle sequence of end-to-end scenario A. -/
def scenarioAngles : List ℝ := [180, 170, 120, 100, 90, 100, 120, 165, 180]

/-- The phase sequence scenario A claims for `scenarioAngles`. -/
def claimedPhases : List Phase :=
  [Phase.up, Phase.up, Phase.up, Phase.down, Phase.down, Phase.down,
   Phase.down, Phase.up, Phase.up]

/-- The phase sequence the analyzer actually produces for
`scenarioAngles`: at the sample 165 the code requires
`angle > 160 + 5` strictly, so the phase is still down there. -/
def actualPhases : List Phase :=
  [Phase.up, Phase.up, Phase.up, Phase.down, Phase.down, Phase.down,
   Phase.down, Phase.down, Phase.up]

/-- Squat-chain landmarks that are all present but all far below the
0.6 visibility floor, standing on a straight line (hip above the knee,
ankle below it), so the knee angle is 180. -/
def lmLowVis : Lm :=
  [(("rightHip"), ⟨0, 1, 0⟩), (("rightKnee"), ⟨0, 0, 0⟩),
   (("rightAnkle"), ⟨0, -1, 0⟩)]

/-- Squat-chain landmarks all present with visibility 0.1, folded to a
fully flexed knee (hip and ankle on the same ray from the knee), so
the knee angle is 0. -/
def lmLowVisFlexed : Lm :=
  [(("rightHip"), ⟨0, 1, 0.1⟩), (("rightKnee"), ⟨0, 0, 0.1⟩),
   (("rightAnkle"), ⟨0, 1, 0.1⟩)]

/-- Landmark map for scenario B: hip and ankle present, both knees
missing entirely. -/
def lmNoKnees : Lm :=
  [(("rightHip"), ⟨0, 1, 1⟩), (("rightAnkle"), ⟨0, -1, 1⟩)]

/-- A one-joint elbow view configuration (primary joint only, no
stability joints). -/
def curlCfg : List (String × JointCfg) :=
  [(("elbow"), ⟨some ("primary"), none, none, none⟩)]

/-- Coach for `curlCfg` with flexed target 110, extended target 170,
tolerance 20: `repFlexThreshold` 120, `repExtThreshold` 160. -/
def coach2 : CState := mkCoach ("elbow") curlCfg 110 170 20

/-- Left-arm frame with the elbow fully extended (angle 180). -/
def frameExt : Lm :=
  [(("leftshoulder"), ⟨0, 1, 1⟩), (("leftelbow"), ⟨0, 0, 1⟩),
   (("leftwrist"), ⟨0, -1, 1⟩)]

/-- Left-arm frame with the elbow at a right angle (angle 90). -/
def frameRight : Lm :=
  [(("leftshoulder"), ⟨0, 1, 1⟩), (("leftelbow"), ⟨0, 0, 1⟩),
   (("leftwrist"), ⟨1, 0, 1⟩)]

/-- Elbow-plus-hip view configuration: primary elbow, stability hip
with target 180 and max deviation 15. -/
def curlStabCfg : List (String × JointCfg) :=
  [(("elbow"), ⟨some ("primary"), none, none, none⟩),
   (("hip"), ⟨some ("stability"), some 180, none, some 15⟩)]

/-- Coach for `curlStabCfg` with flexed target 45, extended target
170, tolerance 10 (scenario C numbers): `repFlexThreshold` 50,
`repExtThreshold` 165. -/
def coach3 : CState := mkCoach ("elbow") curlStabCfg 45 170 10

/-- Frame with the elbow fully flexed (angle 0) and the hip bent to 90
degrees, 90 away from its 180 stability target. -/
def frameFlexBadHip : Lm :=
  [(("leftshoulder"), ⟨0, 1, 1⟩), (("leftelbow"), ⟨0, 0, 1⟩),
   (("leftwrist"), ⟨0, 1, 1⟩), (("lefthip"), ⟨0, 0, 1⟩),
   (("leftknee"), ⟨1, 0, 1⟩)]

/-- Frame with the elbow fully extended (angle 180) and the hip still
bent to 90 degrees. -/
def frameExtBadHip : Lm :=
  [(("leftshoulder"), ⟨0, 1, 1⟩), (("leftelbow"), ⟨0, 0, 1⟩),
   (("leftwrist"), ⟨0, -1, 1⟩), (("lefthip"), ⟨0, 0, 1⟩),
   (("leftknee"), ⟨1, 0, 1⟩)]

/-- Coach state reached while feeding `frameFlexBadHip` frames to
`coach3`: stage flexed, the given excellence buffer and feedback, the
hip flagged red with a "STABILIZE HIP" issue, no marking yet. -/
def c3state (buf : List Bool) (fb : String) : CState :=
  { view_cfg := curlStabCfg, primary_joint_name := "elbow",
    rep_flex_threshold := 50, rep_ext_threshold := 165,
    min_visibility := 0.6,
    reps := 0, stage := Stage.flexed, current_angle := some 0,
    feedback := fb, form_issue := "STABILIZE HIP",
    joint_colors := [(("LEFT_ELBOW"), (0, 255, 0)),
                     (("LEFT_HIP"), (0, 0, 255))],
    stability_feedback := StabFeedback.dev ("hip") (some 90) 180,
    smoothing_buffer := buf, last_bad_form_time := 0,
    warning_duration := 2 }

/-- Coach state after `coach2` has processed one fully-extended
(raw angle 180) left-arm frame at timestamp 2. -/
def c2ext : CState :=
  { view_cfg := curlCfg, primary_joint_name := "elbow",
    rep_flex_threshold := 120, rep_ext_threshold := 160,
    min_visibility := 0.6, reps := 0, stage := Stage.extended,
    current_angle := some 180, feedback := "GO FURTHER", form_issue := "",
    joint_colors := [(("LEFT_ELBOW"), (0, 255, 0))],
    stability_feedback := StabFeedback.ok,
    smoothing_buffer := [true], last_bad_form_time := 0,
    warning_duration := 2 }

/-- One view-configuration entry marks a frame non-excellent on one
side exactly when it is in the points map, all three of its defining
landmarks meet the visibility floor, it is a stability joint, and its
angle deviates from its target by more than the allowed maximum
(a NaN angle never deviates). -/
def entryViolates (s : CState) (lm : Lm) (side : String)
    (e : String × JointCfg) : Prop :=
  ∃ p1 p2 p3, ptsMap e.1 = some (p1, p2, p3) ∧
    ¬ ((lmGetD lm (side ++ p1)).vis < s.min_visibility ∨
       (lmGetD lm (side ++ p2)).vis < s.min_visibility ∨
       (lmGetD lm (side ++ p3)).vis < s.min_visibility) ∧
    e.2.ctype = some "stability" ∧
    oDev (calc_angle (lmGetD lm (side ++ p1)) (lmGetD lm (side ++ p2))
        (lmGetD lm (side ++ p3)))
      (pyOrR e.2.target (pyOrR e.2.upright 180))
      (pyOrR e.2.max_deviation 15)

/-! ### Evaluation lemmas for the angle engines -/

lemma degrees_pi : degrees Real.pi = 180 := by
  unfold degrees
  field_simp

lemma degrees_pi_div_two : degrees (Real.pi / 2) = 90 := by
  unfold degrees
  field_simp
  ring

lemma degrees_zero : degrees 0 = 0 := by
  unfold degrees
  norm_num

lemma degrees_nonneg {x : ℝ} (h : 0 ≤ x) : 0 ≤ degrees x := by
  unfold degrees
  positivity

lemma degrees_le_180 {x : ℝ} (h : x ≤ Real.pi) : degrees x ≤ 180 := by
  unfold degrees
  rw [div_le_iff₀ Real.pi_pos]
  nlinarith [Real.pi_pos]

lemma calc_angle_opp (v1 v2 v3 : ℝ) :
    calc_angle ⟨0, 1, v1⟩ ⟨0, 0, v2⟩ ⟨0, -1, v3⟩ = some 180 := by
  unfold calc_angle
  norm_num [Real.sqrt_one, Real.arccos_neg_one, degrees_pi]

lemma calc_angle_right (v1 v2 v3 : ℝ) :
    calc_angle ⟨0, 1, v1⟩ ⟨0, 0, v2⟩ ⟨1, 0, v3⟩ = some 90 := by
  unfold calc_angle
  norm_num [Real.sqrt_one, Real.arccos_zero, degrees_pi_div_two]

lemma calc_angle_same (v1 v2 v3 : ℝ) :
    calc_angle ⟨0, 1, v1⟩ ⟨0, 0, v2⟩ ⟨0, 1, v3⟩ = some 0 := by
  unfold calc_angle
  norm_num [Real.sqrt_one, Real.arccos_one, degrees_zero]

lemma get_angle_opp (v1 v2 v3 : ℝ) :
    get_angle ⟨0, 1, v1⟩ ⟨0, 0, v2⟩ ⟨0, -1, v3⟩ = 180 := by
  unfold get_angle
  norm_num [Real.sqrt_one, Real.arccos_neg_one, degrees_pi]

lemma get_angle_same (v1 v2 v3 : ℝ) :
    get_angle ⟨0, 1, v1⟩ ⟨0, 0, v2⟩ ⟨0, 1, v3⟩ = 0 := by
  unfold get_angle
  norm_num [Real.sqrt_one, Real.arccos_one, degrees_zero]

/-! ### C5 -/

/-- C5, counterexample: for coincident points a = b, the biomechanics
angle implementation `_calculate_angle` produces a NaN (modelled
`none`), not the claimed 180: the claim that both implementations
return exactly 180 on a zero-magnitude vector is false. -/
theorem C5_counterexample :
    calc_angle ⟨0, 0, 1⟩ ⟨0, 0, 1⟩ ⟨1, 0, 1⟩ = none := by
  unfold calc_angle
  norm_num

/-- C5, amended: `get_angle` always lies in [0, 180] and returns
exactly 180 whenever either vector has zero magnitude (its bare
`except` catches the division by zero); `_calculate_angle` clamps the
cosine argument, so whenever it produces a value that value lies in
[0, 180], but on a zero-magnitude vector it produces NaN (no value)
instead of 180. -/
theorem C5_angle_engine :
    (∀ a b c : Landmark, 0 ≤ get_angle a b c ∧ get_angle a b c ≤ 180) ∧
    (∀ a b c : Landmark,
      (a.x - b.x) ^ 2 + (a.y - b.y) ^ 2 = 0 ∨
        (c.x - b.x) ^ 2 + (c.y - b.y) ^ 2 = 0 →
      get_angle a b c = 180) ∧
    (∀ (a b c : Landmark) (v : ℝ), calc_angle a b c = some v →
      0 ≤ v ∧ v ≤ 180) ∧
    (∀ a b c : Landmark,
      (a.x - b.x) ^ 2 + (a.y - b.y) ^ 2 = 0 ∨
        (c.x - b.x) ^ 2 + (c.y - b.y) ^ 2 = 0 →
      calc_angle a b c = none) := by
  refine ⟨?_, ?_, ?_, ?_⟩
  · intro a b c
    simp only [get_angle]
    split_ifs with h
    · norm_num
    · exact ⟨degrees_nonneg (Real.arccos_nonneg _),
             degrees_le_180 (Real.arccos_le_pi _)⟩
  · intro a b c h
    simp only [get_angle]
    rcases h with h | h <;> rw [h] <;> simp
  · intro a b c v hv
    simp only [calc_angle] at hv
    by_cases h : Real.sqrt ((a.x - b.x) ^ 2 + (a.y - b.y) ^ 2) *
        Real.sqrt ((c.x - b.x) ^ 2 + (c.y - b.y) ^ 2) = 0
    · rw [if_pos h] at hv
      simp at hv
    · rw [if_neg h, Option.some_inj] at hv
      subst hv
      exact ⟨degrees_nonneg (Real.arccos_nonneg _),
             degrees_le_180 (Real.arccos_le_pi _)⟩
  · intro a b c h
    simp only [calc_angle]
    rcases h with h | h <;> rw [h] <;> simp

/-- C5, witness for the amended theorem at concrete inputs. -/
theorem C5_angle_engine_witness :
    get_angle ⟨0, 0, 1⟩ ⟨0, 0, 1⟩ ⟨1, 0, 1⟩ = 180 ∧
    calc_angle ⟨0, 0, 1⟩ ⟨0, 0, 1⟩ ⟨1, 0, 1⟩ = none ∧
    (0 ≤ (90 : ℝ) ∧ (90 : ℝ) ≤ 180) :=
  ⟨C5_angle_engine.2.1 _ _ _ (Or.inl (by norm_num)),
   C5_angle_engine.2.2.2 _ _ _ (Or.inl (by norm_num)),
   C5_angle_engine.2.2.1 ⟨0, 1, 1⟩ ⟨0, 0, 1⟩ ⟨1, 0, 1⟩ 90
     (calc_angle_right 1 1 1)⟩

/-! ### C7 -/

/-- C7: the quality score of the fixed-exercise analyzer coincides
with the spec's three-branch formula (for profiles whose excellent
band is non-degenerate, `excellentMin ≤ excellentMax`), always lies in
[30, 100], equals 100 exactly at the excellent midpoint, and the
reported average is the mean of the history rounded to one decimal, or
absent when the history is empty. -/
theorem C7_quality (s : AState) (h : s.th_excellent_min ≤ s.th_excellent_max) :
    (∀ m : ℝ, calculate_rep_quality s m = qualitySpec s m) ∧
    (∀ m : ℝ, 30 ≤ calculate_rep_quality s m ∧
      calculate_rep_quality s m ≤ 100) ∧
    (∀ m : ℝ, calculate_rep_quality s m = 100 ↔
      m = (s.th_excellent_min + s.th_excellent_max) / 2) ∧
    get_average_quality [] = none ∧
    (∀ hist : List ℝ, hist ≠ [] →
      get_average_quality hist = some (round1 (listMean hist))) := by
  refine ⟨?_, ?_, ?_, by simp [get_average_quality], ?_⟩
  · intro m
    simp only [calculate_rep_quality, qualitySpec]
    by_cases hm : m = (s.th_excellent_min + s.th_excellent_max) / 2
    · rw [hm]
      rw [sub_self, abs_zero]
      rw [if_pos rfl, if_pos (by linarith)]
      rw [mul_zero, sub_zero]
      rw [max_eq_right (by norm_num)]
    · rw [if_neg (abs_ne_zero.mpr (sub_ne_zero.mpr hm))]
      split_ifs <;> ring_nf
  · intro m
    simp only [calculate_rep_quality]
    have hd : 0 ≤ |m - (s.th_excellent_min + s.th_excellent_max) / 2| :=
      abs_nonneg _
    split_ifs with h1 h2 h3
    · exact ⟨by norm_num, by norm_num⟩
    · exact ⟨le_trans (by norm_num) (le_max_left _ _),
             max_le (by norm_num) (by linarith)⟩
    · exact ⟨le_trans (by norm_num) (le_max_left _ _),
             max_le (by norm_num) (by linarith)⟩
    · exact ⟨le_max_left _ _, max_le (by norm_num) (by linarith)⟩
  · intro m
    constructor
    · simp only [calculate_rep_quality]
      have hd : 0 ≤ |m - (s.th_excellent_min + s.th_excellent_max) / 2| :=
        abs_nonneg _
      split_ifs with h1 h2 h3 <;> intro he
      · exact sub_eq_zero.mp (abs_eq_zero.mp h1)
      · exfalso
        rcases le_max_iff.mp he.ge with hc | hc
        · linarith
        · have : 0 < |m - (s.th_excellent_min + s.th_excellent_max) / 2| :=
            lt_of_le_of_ne hd (Ne.symm h1)
          linarith
      · exfalso
        rcases le_max_iff.mp he.ge with hc | hc <;> linarith
      · exfalso
        rcases le_max_iff.mp he.ge with hc | hc <;> linarith
    · intro he
      simp only [calculate_rep_quality]
      rw [he, sub_self, abs_zero, if_pos rfl]
  · intro hist hh
    simp [get_average_quality, hh]

/-- C7, witness at the squat profile with minAngle 90. -/
theorem C7_quality_witness :
    calculate_rep_quality squatAnalyzer 90 = qualitySpec squatAnalyzer 90 ∧
    30 ≤ calculate_rep_quality squatAnalyzer 90 :=
  ⟨(C7_quality squatAnalyzer (by norm_num [squatAnalyzer])).1 90,
   ((C7_quality squatAnalyzer (by norm_num [squatAnalyzer])).2.1 90).1⟩

/-! ### C9 -/

lemma foldl_min_le (l : List ℝ) :
    ∀ x : ℝ, l.foldl min x ≤ x ∧ ∀ a ∈ l, l.foldl min x ≤ a := by
  induction l with
  | nil => intro x; simp
  | cons y t ih =>
    intro x
    refine ⟨le_trans (ih (min x y)).1 (min_le_left _ _), ?_⟩
    intro a ha
    rcases List.mem_cons.mp ha with rfl | ha
    · exact le_trans (ih (min x a)).1 (min_le_right _ _)
    · exact (ih (min x y)).2 a ha

lemma le_foldl_max (l : List ℝ) :
    ∀ x : ℝ, x ≤ l.foldl max x ∧ ∀ a ∈ l, a ≤ l.foldl max x := by
  induction l with
  | nil => intro x; simp
  | cons y t ih =>
    intro x
    refine ⟨le_trans (le_max_left _ _) (ih (max x y)).1, ?_⟩
    intro a ha
    rcases List.mem_cons.mp ha with rfl | ha
    · exact le_trans (le_max_right _ _) (ih (max x a)).1
    · exact (ih (max x y)).2 a ha

lemma listMin_le {w : List ℝ} (hw : w ≠ []) : ∀ a ∈ w, listMin w ≤ a := by
  cases w with
  | nil => exact absurd rfl hw
  | cons x l =>
    intro a ha
    rcases List.mem_cons.mp ha with rfl | ha
    · exact (foldl_min_le l a).1
    · exact (foldl_min_le l x).2 a ha

lemma le_listMax {w : List ℝ} (hw : w ≠ []) : ∀ a ∈ w, a ≤ listMax w := by
  cases w with
  | nil => exact absurd rfl hw
  | cons x l =>
    intro a ha
    rcases List.mem_cons.mp ha with rfl | ha
    · exact (le_foldl_max l a).1
    · exact (le_foldl_max l x).2 a ha

lemma mul_length_le_sum (l : List ℝ) (m : ℝ) (h : ∀ a ∈ l, m ≤ a) :
    m * l.length ≤ l.sum := by
  induction l with
  | nil => simp
  | cons x t ih =>
    have hx := h x (List.mem_cons_self _ _)
    have ht := ih (fun a ha => h a (List.mem_cons_of_mem _ ha))
    simp only [List.sum_cons, List.length_cons]
    push_cast
    nlinarith

lemma sum_le_mul_length (l : List ℝ) (M : ℝ) (h : ∀ a ∈ l, a ≤ M) :
    l.sum ≤ M * l.length := by
  induction l with
  | nil => simp
  | cons x t ih =>
    have hx := h x (List.mem_cons_self _ _)
    have ht := ih (fun a ha => h a (List.mem_cons_of_mem _ ha))
    simp only [List.sum_cons, List.length_cons]
    push_cast
    nlinarith

lemma listMean_bounds {w : List ℝ} (hw : w ≠ []) :
    listMin w ≤ listMean w ∧ listMean w ≤ listMax w := by
  have hlen : 0 < (w.length : ℝ) := by
    exact_mod_cast List.length_pos.mpr hw
  constructor
  · rw [listMean, le_div_iff₀ hlen]
    exact mul_length_le_sum w (listMin w) (listMin_le hw)
  · rw [listMean, div_le_iff₀ hlen]
    exact sum_le_mul_length w (listMax w) (le_listMax hw)

lemma smootherRun_append (n : ℕ) (xs : List ℝ) (x : ℝ) :
    smootherRun n (xs ++ [x]) = pushWin n (smootherRun n xs) x := by
  simp [smootherRun, List.foldl_append, smoothStep]

lemma smootherRun_window (n : ℕ) (hn : 0 < n) :
    ∀ xs : List ℝ, smootherRun n xs = xs.drop (xs.length - n) := by
  intro xs
  induction xs using List.reverseRecOn with
  | nil => simp [smootherRun]
  | append_singleton xs x ih =>
    rw [smootherRun_append, ih]
    by_cases hlt : xs.length < n
    · rw [show xs.length - n = 0 by omega, List.drop_zero, pushWin]
      rw [if_pos (by
        simp only [List.length_append, List.length_singleton]; omega)]
      rw [show (xs ++ [x]).length - n = 0 by
        simp only [List.length_append, List.length_singleton]; omega]
      rw [List.drop_zero]
    · push_neg at hlt
      have hdlen : (xs.drop (xs.length - n)).length = n := by
        rw [List.length_drop]
        omega
      rw [pushWin]
      rw [if_neg (by
        simp only [List.length_append, List.length_singleton, hdlen]; omega)]
      rw [show (xs.drop (xs.length - n) ++ [x]).length - n = 1 by
        simp only [List.length_append, List.length_singleton, hdlen]; omega]
      rw [List.drop_append_eq_append_drop, List.drop_drop,
        List.drop_append_eq_append_drop]
      have h1 : 1 - (xs.drop (xs.length - n)).length = 0 := by omega
      have h2 : (xs ++ [x]).length - n - xs.length = 0 := by
        simp only [List.length_append, List.length_singleton]; omega
      simp only [h1, h2, List.drop_zero]
      have h3 : xs.length - n + 1 = (xs ++ [x]).length - n := by
        simp only [List.length_append, List.length_singleton]; omega
      rw [h3]

/-- C9: feeding any stream `xs ++ [x]` to a freshly constructed
smoother of capacity n leaves exactly the last min(n, samples-seen)
inputs in the window; the output of the final `smooth` call is the
arithmetic mean of that window, and lies between its minimum and
maximum; `reset` restores the freshly constructed (empty) buffer. -/
theorem C9_smoother (n : ℕ) (hn : 0 < n) (xs : List ℝ) (x : ℝ) :
    smootherRun n (xs ++ [x]) = (xs ++ [x]).drop ((xs ++ [x]).length - n) ∧
    (smoothStep n (smootherRun n xs) x).1 =
      listMean (smootherRun n (xs ++ [x])) ∧
    listMin (smootherRun n (xs ++ [x])) ≤
      (smoothStep n (smootherRun n xs) x).1 ∧
    (smoothStep n (smootherRun n xs) x).1 ≤
      listMax (smootherRun n (xs ++ [x])) ∧
    (∀ w : List ℝ, smootherReset w = smootherRun n []) := by
  have hwin := smootherRun_window n hn (xs ++ [x])
  have hne : smootherRun n (xs ++ [x]) ≠ [] := by
    rw [hwin]
    apply List.ne_nil_of_length_pos
    rw [List.length_drop]
    simp
    omega
  have hstep : (smoothStep n (smootherRun n xs) x).1 =
      listMean (smootherRun n (xs ++ [x])) := by
    rw [smootherRun_append]
    rfl
  refine ⟨hwin, hstep, ?_, ?_, fun w => rfl⟩
  · rw [hstep]
    exact (listMean_bounds hne).1
  · rw [hstep]
    exact (listMean_bounds hne).2

/-- C9, witness at capacity 7 with inputs 10, 20, 30. -/
theorem C9_smoother_witness :
    listMin (smootherRun 7 ([10, 20] ++ [30])) ≤
      (smoothStep 7 (smootherRun 7 [10, 20]) 30).1 :=
  (C9_smoother 7 (by norm_num) [10, 20] 30).2.2.1

/-! ### C6 -/

lemma trackMin_reps (s : AState) (x : ℝ) : (trackMin s x).reps = s.reps := by
  unfold trackMin
  split_ifs <;> rfl

lemma transitionStep_reps_le (s : AState) (x : ℝ) :
    s.reps ≤ (transitionStep s x).reps := by
  unfold transitionStep
  split_ifs <;> simp

lemma feedbackStep_reps (s : AState) (x : ℝ) :
    (feedbackStep s x).reps = s.reps := by
  unfold feedbackStep
  split_ifs <;> rfl

lemma analyzeCore_reps_le (s : AState) (x : ℝ) :
    s.reps ≤ ((analyzeCore s x).2).reps := by
  show s.reps ≤ (feedbackStep (transitionStep (trackMin s x) x) x).reps
  rw [feedbackStep_reps]
  calc s.reps = (trackMin s x).reps := (trackMin_reps s x).symm
  _ ≤ (transitionStep (trackMin s x) x).reps := transitionStep_reps_le _ _

lemma analyze_reps_le (s : AState) (lm : Lm) :
    s.reps ≤ ((analyze s lm).2).reps := by
  simp only [analyze]
  split_ifs with h
  · refine le_trans ?_ (analyzeCore_reps_le _ _)
    exact le_refl _
  · simp

lemma pfTransitions_reps_le (t : CState) (current : Option ℝ) (ok : Bool) :
    t.reps ≤ (pfTransitions t current ok).reps := by
  have key : ∀ u : CState, t.reps ≤ u.reps →
      t.reps ≤ (if oGE current t.rep_ext_threshold ∧ u.stage = Stage.flexed
        then { u with stage := Stage.extended, reps := u.reps + 1 }
        else u).reps := by
    intro u hu
    split_ifs
    · exact le_trans hu (Nat.le_succ _)
    · exact hu
  unfold pfTransitions
  by_cases hok : ok = false
  · rw [if_pos hok]
  · rw [if_neg hok]
    dsimp only
    apply key
    split_ifs <;> exact le_refl _

lemma pfMid_reps (s : CState) (ts : ℝ) (acc : LoopAcc) (current : Option ℝ)
    (ok : Bool) : (pfMid s ts acc current ok).reps = s.reps := rfl

lemma process_form_reps_le (s : CState) (lm : Lm) (ts : ℝ) :
    s.reps ≤ (process_form s lm ts).reps := by
  show s.reps ≤ (pfTransitions (pfMid s ts _ _ _) _ _).reps
  refine le_trans ?_ (pfTransitions_reps_le _ _ _)
  rw [pfMid_reps]

lemma analyzeRun_reps_le (s : AState) (frames : List Lm) :
    s.reps ≤ (analyzeRun s frames).reps := by
  induction frames generalizing s with
  | nil => simp [analyzeRun]
  | cons f t ih =>
    calc s.reps ≤ ((analyze s f).2).reps := analyze_reps_le s f
    _ ≤ (analyzeRun (analyze s f).2 t).reps := ih _
    _ = (analyzeRun s (f :: t)).reps := rfl

lemma coachRun_reps_le (s : CState) (frames : List (Lm × ℝ)) :
    s.reps ≤ (coachRun s frames).reps := by
  induction frames generalizing s with
  | nil => simp [coachRun]
  | cons f t ih =>
    calc s.reps ≤ (process_form s f.1 f.2).reps := process_form_reps_le s f.1 f.2
    _ ≤ (coachRun (process_form s f.1 f.2) t).reps := ih _
    _ = (coachRun s (f :: t)).reps := rfl

lemma pfTransitions_false (t : CState) (current : Option ℝ) :
    pfTransitions t current false = t := by
  unfold pfTransitions
  rw [if_pos rfl]

/-- C6: in both variants the rep counter is a natural number that
never decreases across any single analysis call or any sequence of
calls; the explicit reset of the fixed-exercise analyzer sets it to 0,
and a freshly constructed coach (the template variant's only reset,
performed by reconstruction) starts at 0. -/
theorem C6_rep_monotonicity :
    (∀ (s : AState) (lm : Lm), s.reps ≤ ((analyze s lm).2).reps) ∧
    (∀ (s : AState) (frames : List Lm), s.reps ≤ (analyzeRun s frames).reps) ∧
    (∀ (s : CState) (lm : Lm) (ts : ℝ), s.reps ≤ (process_form s lm ts).reps) ∧
    (∀ (s : CState) (frames : List (Lm × ℝ)),
      s.reps ≤ (coachRun s frames).reps) ∧
    (∀ s : AState, (analyzerReset s).reps = 0) ∧
    (∀ (p : String) (cfg : List (String × JointCfg)) (ft et tol : ℝ),
      (mkCoach p cfg ft et tol).reps = 0) :=
  ⟨analyze_reps_le, analyzeRun_reps_le, process_form_reps_le,
   coachRun_reps_le, fun _ => rfl, fun _ _ _ _ _ => rfl⟩

/-! ### C3, amended part -/

/-- C3, amended: on any `process_form` call whose timestamp is less
than `warningDuration` after the `lastBadFormTimestamp` in force at
the start of the call, no stage change and no rep increment occurs.
On the very frame on which instability is first flagged, however, the
form-OK flag was already computed from the previous (old) timestamp,
so that frame itself can still transition and count a rep (see the
counterexample). -/
theorem C3_amended (s : CState) (lm : Lm) (ts : ℝ)
    (h : ts - s.last_bad_form_time < s.warning_duration) :
    (process_form s lm ts).stage = s.stage ∧
    (process_form s lm ts).reps = s.reps := by
  have hok : formOkOf s ts = false := by
    unfold formOkOf
    rw [if_neg (not_le.mpr h)]
  simp only [process_form]
  rw [hok, pfTransitions_false]
  exact ⟨rfl, rfl⟩

/-- C3, witness: a fresh coach called at timestamp 1 (inside the
initial debounce window) keeps its stage and rep count. -/
theorem C3_amended_witness :
    (process_form coach3 [] 1).stage = coach3.stage ∧
    (process_form coach3 [] 1).reps = coach3.reps :=
  C3_amended coach3 [] 1 (by norm_num [coach3, mkCoach])

/-! ### C4, amended part -/

/-- C4, amended: in the fixed-exercise analyzer, a frame in which any
of the three selected-side chain joints is missing from the landmark
map yields the neutral POSITION YOURSELF output with angle 180 and the
current reps, and leaves the whole session state unchanged.  The
membership check inspects presence only: landmarks that are present
but below the visibility floor are processed normally (see the
counterexample), and the template coach has no neutral branch at all.
-/
theorem C4_amended (s : AState) (lm : Lm)
    (h : ¬ (lmMem lm (sideOf lm ++ s.chain1) ∧
            lmMem lm (sideOf lm ++ s.chain2) ∧
            lmMem lm (sideOf lm ++ s.chain3))) :
    analyze s lm =
      (⟨s.reps, s.phase, 180, "POSITION YOURSELF", (100, 100, 100), none⟩,
       s) := by
  simp only [analyze]
  rw [if_neg h]

/-- C4, witness: the squat analyzer on a landmark map missing both
knees (scenario B) returns the neutral record and the untouched
state. -/
theorem C4_amended_witness :
    analyze squatAnalyzer lmNoKnees =
      (⟨0, Phase.up, 180, "POSITION YOURSELF", (100, 100, 100), none⟩,
       squatAnalyzer) :=
  C4_amended squatAnalyzer lmNoKnees (by
    intro hc
    have h2 := hc.2.1
    simp [lmMem, lmLookup, lmNoKnees, sideOf, visOr0, lmGetD,
      squatAnalyzer, List.lookup] at h2)

/-! ### Dictionary lemmas for joint colors -/

lemma lookup_cons_self (k : String) (v : Color) (t : List (String × Color)) :
    List.lookup k ((k, v) :: t) = some v := by
  simp [List.lookup]

lemma lookup_cons_ne (k ek : String) (ev : Color) (t : List (String × Color))
    (h : (k == ek) = false) :
    List.lookup k ((ek, ev) :: t) = List.lookup k t := by
  simp [List.lookup, h]

lemma lookup_map_set_self :
    ∀ (l : List (String × Color)) (k : String) (v : Color),
      (List.lookup k l).isSome = true →
      List.lookup k (l.map (fun p => if p.1 = k then (k, v) else p)) =
        some v := by
  intro l
  induction l with
  | nil => intro k v hp; simp at hp
  | cons e t ih =>
    obtain ⟨ek, ev⟩ := e
    intro k v hp
    by_cases he : ek = k
    · subst he
      simp only [List.map_cons, if_true]
      rw [lookup_cons_self]
    · have hbk : (k == ek) = false := by simp [Ne.symm he]
      simp only [List.map_cons]
      rw [if_neg he]
      rw [lookup_cons_ne k ek ev _ hbk]
      rw [lookup_cons_ne k ek ev t hbk] at hp
      exact ih k v hp

lemma lookup_map_set_other :
    ∀ (l : List (String × Color)) (k k2 : String) (v : Color), k ≠ k2 →
      List.lookup k (l.map (fun p => if p.1 = k2 then (k2, v) else p)) =
        List.lookup k l := by
  intro l
  induction l with
  | nil => intro k k2 v h; simp
  | cons e t ih =>
    obtain ⟨ek, ev⟩ := e
    intro k k2 v h
    by_cases he : ek = k2
    · subst he
      have hbk : (k == ek) = false := by simp [h]
      simp only [List.map_cons, if_true]
      rw [lookup_cons_ne k ek v _ hbk, lookup_cons_ne k ek ev t hbk]
      exact ih k ek v h
    · simp only [List.map_cons]
      rw [if_neg he]
      cases hbk : (k == ek)
      · rw [lookup_cons_ne k ek ev _ hbk, lookup_cons_ne k ek ev t hbk]
        exact ih k k2 v h
      · have hke : k = ek := by simpa using hbk
        subst hke
        rw [lookup_cons_self, lookup_cons_self]

lemma lookup_append_single_ne :
    ∀ (l : List (String × Color)) (k k2 : String) (v : Color), k ≠ k2 →
      List.lookup k (l ++ [(k2, v)]) = List.lookup k l := by
  intro l
  induction l with
  | nil =>
    intro k k2 v h
    rw [List.nil_append, lookup_cons_ne k k2 v [] (by simp [h])]
  | cons e t ih =>
    obtain ⟨ek, ev⟩ := e
    intro k k2 v h
    rw [List.cons_append]
    cases hbk : (k == ek)
    · rw [lookup_cons_ne k ek ev _ hbk, lookup_cons_ne k ek ev t hbk]
      exact ih k k2 v h
    · have hke : k = ek := by simpa using hbk
      subst hke
      rw [lookup_cons_self, lookup_cons_self]

lemma lookup_append_single_none :
    ∀ (l : List (String × Color)) (k : String) (v : Color),
      List.lookup k l = none →
      List.lookup k (l ++ [(k, v)]) = some v := by
  intro l
  induction l with
  | nil =>
    intro k v _
    rw [List.nil_append, lookup_cons_self]
  | cons e t ih =>
    obtain ⟨ek, ev⟩ := e
    intro k v hnone
    rw [List.cons_append]
    cases hbk : (k == ek)
    · rw [lookup_cons_ne k ek ev t hbk] at hnone
      rw [lookup_cons_ne k ek ev _ hbk]
      exact ih k v hnone
    · have hke : k = ek := by simpa using hbk
      subst hke
      rw [lookup_cons_self] at hnone
      exact absurd hnone (by simp)

lemma lookup_jcSet_self (l : List (String × Color)) (k : String) (v : Color) :
    List.lookup k (jcSet l k v) = some v := by
  unfold jcSet
  by_cases hp : (List.lookup k l).isSome
  · rw [if_pos hp]
    exact lookup_map_set_self l k v hp
  · rw [if_neg hp]
    have hnone : List.lookup k l = none := by
      cases hh : List.lookup k l
      · rfl
      · exact absurd (by simp [hh]) hp
    exact lookup_append_single_none l k v hnone

lemma lookup_jcSet_other (l : List (String × Color)) (k k2 : String)
    (v : Color) (h : k ≠ k2) :
    List.lookup k (jcSet l k2 v) = List.lookup k l := by
  unfold jcSet
  by_cases hp : (List.lookup k2 l).isSome
  · rw [if_pos hp]
    exact lookup_map_set_other l k k2 v h
  · rw [if_neg hp]
    exact lookup_append_single_ne l k k2 v h

lemma left_right_key_ne (u : String) :
    upperStr ("left") ++ "_" ++ u ≠ upperStr ("right") ++ "_" ++ u := by
  rw [show upperStr ("left") = "LEFT" from by decide,
      show upperStr ("right") = "RIGHT" from by decide]
  intro h
  have h2 := congrArg String.data h
  simp [String.data_append] at h2

/-! ### C10 -/

lemma lookup_primaryRecolor_self_red (s : CState)
    (colors : List (String × Color)) (side : String) (angle : Option ℝ) :
    ∀ c : Color,
      List.lookup (upperStr side ++ "_" ++ upperStr s.primary_joint_name)
        (primaryRecolor s colors side angle false) = some c →
      c = (0, 0, 255) := by
  intro c
  unfold primaryRecolor
  by_cases hp : (List.lookup
      (upperStr side ++ "_" ++ upperStr s.primary_joint_name) colors).isSome
  · rw [if_pos hp, if_pos rfl, lookup_jcSet_self]
    intro hc
    exact (Option.some_inj.mp hc).symm
  · rw [if_neg hp]
    intro hc
    exact absurd (by simp [hc]) hp

lemma lookup_primaryRecolor_other (s : CState)
    (colors : List (String × Color)) (side : String) (angle : Option ℝ)
    (ok : Bool) (k : String)
    (h : k ≠ upperStr side ++ "_" ++ upperStr s.primary_joint_name) :
    List.lookup k (primaryRecolor s colors side angle ok) =
      List.lookup k colors := by
  simp only [primaryRecolor]
  split_ifs <;> first
    | rfl
    | exact lookup_jcSet_other _ _ _ _ h

/-- One warm-up call: whatever the landmarks, a call whose timestamp
is nonnegative and earlier than the 2-second warning duration (with a
nonnegative last bad-form timestamp) changes neither stage nor reps,
reports FIX FORM, colors any present primary-joint key red, and keeps
the warm-up invariant. -/
lemma warm_step (s : CState) (lm : Lm) (ts : ℝ)
    (hw : s.warning_duration = 2) (hlb : 0 ≤ s.last_bad_form_time)
    (h0 : 0 ≤ ts) (h2 : ts < 2) :
    (process_form s lm ts).reps = s.reps ∧
    (process_form s lm ts).stage = s.stage ∧
    (process_form s lm ts).feedback = "FIX FORM" ∧
    (process_form s lm ts).warning_duration = 2 ∧
    0 ≤ (process_form s lm ts).last_bad_form_time ∧
    (∀ c : Color,
      List.lookup (upperStr ("left") ++ "_" ++ upperStr s.primary_joint_name)
        (process_form s lm ts).joint_colors = some c → c = (0, 0, 255)) ∧
    (∀ c : Color,
      List.lookup (upperStr ("right") ++ "_" ++ upperStr s.primary_joint_name)
        (process_form s lm ts).joint_colors = some c → c = (0, 0, 255)) ∧
    (process_form s lm ts).primary_joint_name = s.primary_joint_name := by
  have hok : formOkOf s ts = false := by
    unfold formOkOf
    rw [if_neg (by rw [hw]; linarith)]
  simp only [process_form]
  rw [hok, pfTransitions_false]
  refine ⟨rfl, rfl, ?_, hw, ?_, ?_, ?_, rfl⟩
  · simp [pfMid]
  · simp only [pfMid]
    split_ifs
    · exact h0
    · exact hlb
  · intro c hc
    simp only [pfMid] at hc
    rw [lookup_primaryRecolor_other s _ ("right") _ false _
      (left_right_key_ne (upperStr s.primary_joint_name))] at hc
    exact lookup_primaryRecolor_self_red s _ ("left") _ c hc
  · intro c hc
    simp only [pfMid] at hc
    exact lookup_primaryRecolor_self_red s _ ("right") _ c hc

/-- Warm-up invariant propagated along a run of calls whose timestamps
stay inside [0, 2). -/
lemma warm_run : ∀ (pre : List (Lm × ℝ)) (s : CState),
    s.warning_duration = 2 → 0 ≤ s.last_bad_form_time →
    (∀ f ∈ pre, 0 ≤ f.2 ∧ f.2 < 2) →
    (coachRun s pre).reps = s.reps ∧
    (coachRun s pre).stage = s.stage ∧
    (coachRun s pre).warning_duration = 2 ∧
    0 ≤ (coachRun s pre).last_bad_form_time ∧
    (coachRun s pre).primary_joint_name = s.primary_joint_name := by
  intro pre
  induction pre with
  | nil => intro s hw hlb _; exact ⟨rfl, rfl, hw, hlb, rfl⟩
  | cons f t ih =>
    intro s hw hlb hf
    have hmem := hf f (List.mem_cons_self _ _)
    have hstep := warm_step s f.1 f.2 hw hlb hmem.1 hmem.2
    have ihr := ih (process_form s f.1 f.2) hstep.2.2.2.1 hstep.2.2.2.2.1
      (fun g hg => hf g (List.mem_cons_of_mem _ hg))
    refine ⟨?_, ?_, ihr.2.2.1, ihr.2.2.2.1, ?_⟩
    · show (coachRun (process_form s f.1 f.2) t).reps = s.reps
      rw [ihr.1, hstep.1]
    · show (coachRun (process_form s f.1 f.2) t).stage = s.stage
      rw [ihr.2.1, hstep.2.1]
    · show (coachRun (process_form s f.1 f.2) t).primary_joint_name =
        s.primary_joint_name
      rw [ihr.2.2.2.2, hstep.2.2.2.2.2.2.2]

/-- C10: starting from a freshly constructed coach
(`lastBadFormTimestamp` 0, `warningDuration` 2), after any sequence of
calls with timestamps in [0, 2), one more call with a timestamp in
[0, 2) treats form as not OK regardless of the landmarks: the feedback
is FIX FORM, every primary-joint key present in the joint colors is
red, and neither the stage (still extended) nor the rep count (still
0) changes. -/
theorem C10_warmup (primary : String) (cfg : List (String × JointCfg))
    (ft et tol : ℝ) (pre : List (Lm × ℝ)) (lm : Lm) (ts : ℝ)
    (hpre : ∀ f ∈ pre, 0 ≤ f.2 ∧ f.2 < 2) (h0 : 0 ≤ ts) (h2 : ts < 2) :
    (process_form (coachRun (mkCoach primary cfg ft et tol) pre) lm ts).reps
        = 0 ∧
    (process_form (coachRun (mkCoach primary cfg ft et tol) pre) lm ts).stage
        = Stage.extended ∧
    (process_form (coachRun (mkCoach primary cfg ft et tol) pre) lm
        ts).feedback = "FIX FORM" ∧
    (∀ c : Color,
      List.lookup (upperStr ("left") ++ "_" ++ upperStr primary)
        (process_form (coachRun (mkCoach primary cfg ft et tol) pre) lm
          ts).joint_colors = some c → c = (0, 0, 255)) ∧
    (∀ c : Color,
      List.lookup (upperStr ("right") ++ "_" ++ upperStr primary)
        (process_form (coachRun (mkCoach primary cfg ft et tol) pre) lm
          ts).joint_colors = some c → c = (0, 0, 255)) := by
  have hrun := warm_run pre (mkCoach primary cfg ft et tol) rfl le_rfl hpre
  have hstep := warm_step (coachRun (mkCoach primary cfg ft et tol) pre)
    lm ts hrun.2.2.1 hrun.2.2.2.1 h0 h2
  have hpj : (coachRun (mkCoach primary cfg ft et tol)
      pre).primary_joint_name = primary := hrun.2.2.2.2
  rw [hpj] at hstep
  refine ⟨?_, ?_, hstep.2.2.1, hstep.2.2.2.2.2.1, hstep.2.2.2.2.2.2.1⟩
  · rw [hstep.1, hrun.1]
    rfl
  · rw [hstep.2.1, hrun.2.1]
    rfl

/-- C10, witness: the fresh two-joint curl coach called once at
timestamp 1 on an empty landmark map. -/
theorem C10_warmup_witness :
    (process_form (coachRun coach3 []) [] 1).feedback = "FIX FORM" :=
  (C10_warmup ("elbow") curlStabCfg 45 170 10 [] [] 1 (by simp)
    (by norm_num) (by norm_num)).2.2.1

/-! ### Concrete evaluation of the coach's joint loop -/

lemma ptsMap_elbow :
    ptsMap ("elbow") = some (("shoulder"), ("elbow"), ("wrist")) := rfl

lemma ptsMap_hip :
    ptsMap ("hip") = some (("shoulder"), ("hip"), ("knee")) := by decide

lemma cat_left_shoulder : ("left" : String) ++ "shoulder" = "leftshoulder" :=
  rfl

lemma cat_left_elbow : ("left" : String) ++ "elbow" = "leftelbow" := rfl

lemma cat_left_wrist : ("left" : String) ++ "wrist" = "leftwrist" := rfl

lemma cat_left_hip : ("left" : String) ++ "hip" = "lefthip" := rfl

lemma cat_left_knee : ("left" : String) ++ "knee" = "leftknee" := rfl

lemma cat_right_shoulder :
    ("right" : String) ++ "shoulder" = "rightshoulder" := rfl

lemma cat_right_elbow : ("right" : String) ++ "elbow" = "rightelbow" := rfl

lemma cat_right_wrist : ("right" : String) ++ "wrist" = "rightwrist" := rfl

lemma cat_right_hip : ("right" : String) ++ "hip" = "righthip" := rfl

lemma cat_right_knee : ("right" : String) ++ "knee" = "rightknee" := rfl

lemma upper_left_elbow :
    upperStr ("left") ++ "_" ++ upperStr ("elbow") = "LEFT_ELBOW" := by
  decide

lemma upper_left_hip :
    upperStr ("left") ++ "_" ++ upperStr ("hip") = "LEFT_HIP" := by
  decide

lemma upper_right_elbow :
    upperStr ("right") ++ "_" ++ upperStr ("elbow") = "RIGHT_ELBOW" := by
  decide

lemma upper_stabilize_hip :
    "STABILIZE " ++ upperStr ("hip") = "STABILIZE HIP" := by
  decide

lemma ne_primary_stability : ¬ ("primary" : String) = "stability" := by
  decide

lemma ne_hip_elbow : ¬ ("hip" : String) = "elbow" := by decide

lemma ne_LH_LE : ¬ ("LEFT_HIP" : String) = "LEFT_ELBOW" := by decide

lemma beq_RE_LE : (("RIGHT_ELBOW" : String) == "LEFT_ELBOW") = false := by
  decide

lemma beq_RE_LH : (("RIGHT_ELBOW" : String) == "LEFT_HIP") = false := by
  decide

lemma stage_ne_fe : ¬ (Stage.flexed = Stage.extended) := by decide

lemma stage_ne_ef : ¬ (Stage.extended = Stage.flexed) := by decide

lemma abs_90_180 : (15 : ℝ) < |(90 : ℝ) - 180| := by
  rw [abs_sub_comm, abs_of_nonneg (by norm_num : (0:ℝ) ≤ 180 - 90)]
  norm_num

lemma flexBad_getD :
    lmGetD frameFlexBadHip ("leftshoulder") = ⟨0, 1, 1⟩ ∧
    lmGetD frameFlexBadHip ("leftelbow") = ⟨0, 0, 1⟩ ∧
    lmGetD frameFlexBadHip ("leftwrist") = ⟨0, 1, 1⟩ ∧
    lmGetD frameFlexBadHip ("lefthip") = ⟨0, 0, 1⟩ ∧
    lmGetD frameFlexBadHip ("leftknee") = ⟨1, 0, 1⟩ ∧
    lmGetD frameFlexBadHip ("rightshoulder") = ⟨0, 0, 0⟩ ∧
    lmGetD frameFlexBadHip ("rightelbow") = ⟨0, 0, 0⟩ ∧
    lmGetD frameFlexBadHip ("rightwrist") = ⟨0, 0, 0⟩ ∧
    lmGetD frameFlexBadHip ("righthip") = ⟨0, 0, 0⟩ ∧
    lmGetD frameFlexBadHip ("rightknee") = ⟨0, 0, 0⟩ :=
  ⟨rfl, rfl, rfl, rfl, rfl, rfl, rfl, rfl, rfl, rfl⟩

lemma runLoop_flexBad (s : CState) (h1 : s.view_cfg = curlStabCfg)
    (h2 : s.primary_joint_name = "elbow") (h3 : s.min_visibility = 0.6) :
    runLoop s frameFlexBadHip =
      ⟨false, [(("LEFT_ELBOW"), (0, 255, 0)), (("LEFT_HIP"), (0, 0, 255))],
       [("STABILIZE HIP")], StabFeedback.dev ("hip") (some 90) 180,
       some 0, some 180⟩ := by
  rw [runLoop, h1]
  norm_num [curlStabCfg, jointPass, ptsMap_elbow, ptsMap_hip, h2, h3,
    flexBad_getD.1, flexBad_getD.2.1, flexBad_getD.2.2.1,
    flexBad_getD.2.2.2.1, flexBad_getD.2.2.2.2.1,
    flexBad_getD.2.2.2.2.2.1, flexBad_getD.2.2.2.2.2.2.1,
    flexBad_getD.2.2.2.2.2.2.2.1, flexBad_getD.2.2.2.2.2.2.2.2.1,
    flexBad_getD.2.2.2.2.2.2.2.2.2, calc_angle_same,
    ne_primary_stability, ne_hip_elbow, ne_LH_LE, abs_90_180,
    calc_angle_right, pyOrR, oDev, jcSet, upper_left_elbow,
    upper_left_hip, upper_stabilize_hip, cat_left_shoulder,
    cat_left_elbow, cat_left_wrist, cat_left_hip, cat_left_knee,
    cat_right_shoulder, cat_right_elbow, cat_right_wrist, cat_right_hip,
    cat_right_knee]

lemma extBad_getD :
    lmGetD frameExtBadHip ("leftshoulder") = ⟨0, 1, 1⟩ ∧
    lmGetD frameExtBadHip ("leftelbow") = ⟨0, 0, 1⟩ ∧
    lmGetD frameExtBadHip ("leftwrist") = ⟨0, -1, 1⟩ ∧
    lmGetD frameExtBadHip ("lefthip") = ⟨0, 0, 1⟩ ∧
    lmGetD frameExtBadHip ("leftknee") = ⟨1, 0, 1⟩ ∧
    lmGetD frameExtBadHip ("rightshoulder") = ⟨0, 0, 0⟩ ∧
    lmGetD frameExtBadHip ("rightelbow") = ⟨0, 0, 0⟩ ∧
    lmGetD frameExtBadHip ("rightwrist") = ⟨0, 0, 0⟩ ∧
    lmGetD frameExtBadHip ("righthip") = ⟨0, 0, 0⟩ ∧
    lmGetD frameExtBadHip ("rightknee") = ⟨0, 0, 0⟩ :=
  ⟨rfl, rfl, rfl, rfl, rfl, rfl, rfl, rfl, rfl, rfl⟩

lemma runLoop_extBad (s : CState) (h1 : s.view_cfg = curlStabCfg)
    (h2 : s.primary_joint_name = "elbow") (h3 : s.min_visibility = 0.6) :
    runLoop s frameExtBadHip =
      ⟨false, [(("LEFT_ELBOW"), (0, 255, 0)), (("LEFT_HIP"), (0, 0, 255))],
       [("STABILIZE HIP")], StabFeedback.dev ("hip") (some 90) 180,
       some 180, some 180⟩ := by
  rw [runLoop, h1]
  norm_num [curlStabCfg, jointPass, ptsMap_elbow, ptsMap_hip, h2, h3,
    extBad_getD.1, extBad_getD.2.1, extBad_getD.2.2.1,
    extBad_getD.2.2.2.1, extBad_getD.2.2.2.2.1,
    extBad_getD.2.2.2.2.2.1, extBad_getD.2.2.2.2.2.2.1,
    extBad_getD.2.2.2.2.2.2.2.1, extBad_getD.2.2.2.2.2.2.2.2.1,
    extBad_getD.2.2.2.2.2.2.2.2.2, calc_angle_opp,
    ne_primary_stability, ne_hip_elbow, ne_LH_LE, abs_90_180,
    calc_angle_right, pyOrR, oDev, jcSet, upper_left_elbow,
    upper_left_hip, upper_stabilize_hip, cat_left_shoulder,
    cat_left_elbow, cat_left_wrist, cat_left_hip, cat_left_knee,
    cat_right_shoulder, cat_right_elbow, cat_right_wrist, cat_right_hip,
    cat_right_knee]

lemma primarySideOf_flexBad (s : CState)
    (h2 : s.primary_joint_name = "elbow") :
    primarySideOf s frameFlexBadHip = "left" := by
  simp only [primarySideOf, h2, cat_left_elbow, cat_right_elbow,
    show lmLookup frameFlexBadHip ("leftelbow") = some ⟨0, 0, 1⟩ from rfl,
    show lmLookup frameFlexBadHip ("rightelbow") = none from rfl,
    show visOr0 frameFlexBadHip ("rightelbow") = 0 from rfl,
    show visOr0 frameFlexBadHip ("leftelbow") = 1 from rfl]
  norm_num

lemma primarySideOf_extBad (s : CState)
    (h2 : s.primary_joint_name = "elbow") :
    primarySideOf s frameExtBadHip = "left" := by
  simp only [primarySideOf, h2, cat_left_elbow, cat_right_elbow,
    show lmLookup frameExtBadHip ("leftelbow") = some ⟨0, 0, 1⟩ from rfl,
    show lmLookup frameExtBadHip ("rightelbow") = none from rfl,
    show visOr0 frameExtBadHip ("rightelbow") = 0 from rfl,
    show visOr0 frameExtBadHip ("leftelbow") = 1 from rfl]
  norm_num

lemma pushWin_le {α : Type} (n : ℕ) (w : List α) (x : α)
    (h : w.length + 1 ≤ n) : pushWin n w x = w ++ [x] := by
  unfold pushWin
  rw [if_pos (by simp only [List.length_append, List.length_singleton]; omega)]

/-- First scenario frame of the C3 run: the fresh coach flexes on the
bad-hip frame (form still OK since the window has a single bad
sample). -/
lemma c3_step1 :
    process_form coach3 frameFlexBadHip 2 = c3state [false] ("GOOD DEPTH") := by
  have hacc := runLoop_flexBad coach3 rfl rfl rfl
  have hside := primarySideOf_flexBad coach3 rfl
  simp only [process_form, hacc, hside, pfMid, pfTransitions]
  norm_num [formOkOf, coach3, mkCoach, c3state, primaryRecolor, oLE, oGE,
    oLT, oGT, pushWin, jcSet, upper_left_elbow, upper_right_elbow,
    beq_RE_LE, beq_RE_LH, ne_LH_LE, stage_ne_fe, stage_ne_ef,
    List.lookup, CState.mk.injEq]

/-- Middle scenario frames of the C3 run: each further bad-hip frame
appends one more bad sample without reaching the marking threshold. -/
lemma c3_stepB (bf : List Bool) (fb : String) (hlen : bf.length ≤ 18)
    (hcount : bf.count false ≤ 5) :
    process_form (c3state bf fb) frameFlexBadHip 2 =
      c3state (bf ++ [false]) ("FULL EXTENSION") := by
  have hacc := runLoop_flexBad (c3state bf fb) rfl rfl rfl
  have hside := primarySideOf_flexBad (c3state bf fb) rfl
  have hpush : pushWin 20 bf false = bf ++ [false] :=
    pushWin_le 20 bf false (by omega)
  have hcnt : (bf ++ [false]).count false = bf.count false + 1 := by
    simp
  have hmark : ¬ ((20 : ℝ) * 0.3 < ((bf.count false + 1 : ℕ) : ℝ)) := by
    push_cast
    have : (bf.count false : ℝ) ≤ 5 := by exact_mod_cast hcount
    linarith
  simp only [process_form, hacc, hside, pfMid, pfTransitions]
  norm_num [formOkOf, c3state, primaryRecolor, oLE, oGE,
    oLT, oGT, hpush, hcnt, hmark, jcSet, upper_left_elbow,
    upper_right_elbow, beq_RE_LE, beq_RE_LH, ne_LH_LE, stage_ne_fe,
    stage_ne_ef, List.lookup, CState.mk.injEq]
  have h5 : ((List.count false bf : ℕ) : ℝ) ≤ 5 := by exact_mod_cast hcount
  linarith

/-- Flag frame of the C3 run: the seventh bad sample pushes the
20-sample window over the 30 percent threshold, so this very call
marks the form as unstable (setting the bad-form timestamp to its own
timestamp) and nevertheless counts a rep, because form-OK was computed
from the previous timestamp before the marking. -/
lemma c3_stepC (fb : String) :
    process_form (c3state (List.replicate 6 false) fb) frameExtBadHip 2 =
      { c3state (List.replicate 7 false) ("GOOD EXTENSION") with
        stage := Stage.extended, reps := 1,
        current_angle := some 180, last_bad_form_time := 2 } := by
  have hacc := runLoop_extBad (c3state (List.replicate 6 false) fb) rfl rfl rfl
  have hside := primarySideOf_extBad (c3state (List.replicate 6 false) fb) rfl
  have hpush : pushWin 20 (List.replicate 6 false) false =
      List.replicate 6 false ++ [false] :=
    pushWin_le 20 _ false (by simp)
  have hrep : List.replicate 6 false ++ [false] =
      List.replicate 7 false := by
    rfl
  have hcnt : (List.replicate 7 false).count false = 7 := by simp
  have hmark : (20 : ℝ) * 0.3 < ((7 : ℕ) : ℝ) := by norm_num
  simp only [process_form, hacc, hside, pfMid, pfTransitions]
  norm_num [formOkOf, c3state, primaryRecolor, oLE, oGE,
    oLT, oGT, hpush, hrep, hcnt, hmark, jcSet, upper_left_elbow,
    upper_right_elbow, beq_RE_LE, beq_RE_LH, ne_LH_LE, stage_ne_fe,
    stage_ne_ef, List.lookup, CState.mk.injEq]

/-- C3, counterexample: a run of six frames with a violated stability
hip fills the excellence window with six bad samples (reps still 0,
never marked: the bad-form timestamp is still 0).  The seventh call,
at timestamp 2, is the very frame on which instability is first
flagged — it sets the bad-form timestamp to its own timestamp 2 (the
window now has 7 of at most 20 samples bad, more than 30 percent), its
timestamp 2 is less than 2 + warningDuration, and it nevertheless
increments reps from 0 to 1, because the form-OK flag was computed
from the previous timestamp before the marking. -/
theorem C3_counterexample :
    (coachRun coach3 (List.replicate 6 ((frameFlexBadHip), (2 : ℝ)))).reps
        = 0 ∧
    (coachRun coach3 (List.replicate 6 ((frameFlexBadHip),
        (2 : ℝ)))).last_bad_form_time = 0 ∧
    (process_form (coachRun coach3 (List.replicate 6 ((frameFlexBadHip),
        (2 : ℝ)))) frameExtBadHip 2).reps = 1 ∧
    (process_form (coachRun coach3 (List.replicate 6 ((frameFlexBadHip),
        (2 : ℝ)))) frameExtBadHip 2).last_bad_form_time = 2 ∧
    (process_form (coachRun coach3 (List.replicate 6 ((frameFlexBadHip),
        (2 : ℝ)))) frameExtBadHip 2).smoothing_buffer.count false = 7 ∧
    (2 : ℝ) - (process_form (coachRun coach3 (List.replicate 6
        ((frameFlexBadHip), (2 : ℝ)))) frameExtBadHip
        2).last_bad_form_time <
      (process_form (coachRun coach3 (List.replicate 6 ((frameFlexBadHip),
        (2 : ℝ)))) frameExtBadHip 2).warning_duration := by
  have e1 := c3_step1
  have e2 : process_form (c3state [false] ("GOOD DEPTH"))
      frameFlexBadHip 2 = c3state [false, false] ("FULL EXTENSION") := by
    simpa using c3_stepB [false] ("GOOD DEPTH") (by simp) (by simp)
  have e3 : process_form (c3state [false, false] ("FULL EXTENSION"))
      frameFlexBadHip 2 =
        c3state [false, false, false] ("FULL EXTENSION") := by
    simpa using c3_stepB [false, false] ("FULL EXTENSION")
      (by simp) (by simp)
  have e4 : process_form (c3state [false, false, false]
      ("FULL EXTENSION")) frameFlexBadHip 2 =
        c3state [false, false, false, false] ("FULL EXTENSION") := by
    simpa using c3_stepB [false, false, false] ("FULL EXTENSION")
      (by simp) (by simp)
  have e5 : process_form (c3state [false, false, false, false]
      ("FULL EXTENSION")) frameFlexBadHip 2 =
        c3state [false, false, false, false, false]
          ("FULL EXTENSION") := by
    simpa using c3_stepB [false, false, false, false] ("FULL EXTENSION")
      (by simp) (by simp)
  have e6 : process_form (c3state [false, false, false, false, false]
      ("FULL EXTENSION")) frameFlexBadHip 2 =
        c3state [false, false, false, false, false, false]
          ("FULL EXTENSION") := by
    simpa using c3_stepB [false, false, false, false, false]
      ("FULL EXTENSION") (by simp) (by simp)
  have h6 : coachRun coach3 (List.replicate 6 ((frameFlexBadHip),
      (2 : ℝ))) =
        c3state [false, false, false, false, false, false]
          ("FULL EXTENSION") := by
    show coachRun coach3 [(frameFlexBadHip, 2), (frameFlexBadHip, 2),
      (frameFlexBadHip, 2), (frameFlexBadHip, 2), (frameFlexBadHip, 2),
      (frameFlexBadHip, 2)] = _
    simp only [coachRun, List.foldl]
    rw [e1, e2, e3, e4, e5, e6]
  have e7 := c3_stepC ("FULL EXTENSION")
  rw [show List.replicate 6 false =
    [false, false, false, false, false, false] from rfl] at e7
  rw [h6, e7]
  refine ⟨rfl, rfl, rfl, rfl, by simp [c3state], by norm_num [c3state]⟩

/-! ### C2 -/

lemma extFrame_getD :
    lmGetD frameExt ("leftshoulder") = ⟨0, 1, 1⟩ ∧
    lmGetD frameExt ("leftelbow") = ⟨0, 0, 1⟩ ∧
    lmGetD frameExt ("leftwrist") = ⟨0, -1, 1⟩ ∧
    lmGetD frameExt ("rightshoulder") = ⟨0, 0, 0⟩ ∧
    lmGetD frameExt ("rightelbow") = ⟨0, 0, 0⟩ ∧
    lmGetD frameExt ("rightwrist") = ⟨0, 0, 0⟩ :=
  ⟨rfl, rfl, rfl, rfl, rfl, rfl⟩

lemma rightFrame_getD :
    lmGetD frameRight ("leftshoulder") = ⟨0, 1, 1⟩ ∧
    lmGetD frameRight ("leftelbow") = ⟨0, 0, 1⟩ ∧
    lmGetD frameRight ("leftwrist") = ⟨1, 0, 1⟩ ∧
    lmGetD frameRight ("rightshoulder") = ⟨0, 0, 0⟩ ∧
    lmGetD frameRight ("rightelbow") = ⟨0, 0, 0⟩ ∧
    lmGetD frameRight ("rightwrist") = ⟨0, 0, 0⟩ :=
  ⟨rfl, rfl, rfl, rfl, rfl, rfl⟩

lemma runLoop_ext (s : CState) (h1 : s.view_cfg = curlCfg)
    (h2 : s.primary_joint_name = "elbow") (h3 : s.min_visibility = 0.6) :
    runLoop s frameExt =
      ⟨true, [(("LEFT_ELBOW"), (0, 255, 0))], [], StabFeedback.ok,
       some 180, some 180⟩ := by
  rw [runLoop, h1]
  norm_num [curlCfg, jointPass, ptsMap_elbow, h2, h3,
    extFrame_getD.1, extFrame_getD.2.1, extFrame_getD.2.2.1,
    extFrame_getD.2.2.2.1, extFrame_getD.2.2.2.2.1,
    extFrame_getD.2.2.2.2.2, calc_angle_opp, ne_primary_stability,
    pyOrR, oDev, jcSet, upper_left_elbow, cat_left_shoulder,
    cat_left_elbow, cat_left_wrist, cat_right_shoulder, cat_right_elbow,
    cat_right_wrist]

lemma runLoop_right (s : CState) (h1 : s.view_cfg = curlCfg)
    (h2 : s.primary_joint_name = "elbow") (h3 : s.min_visibility = 0.6) :
    runLoop s frameRight =
      ⟨true, [(("LEFT_ELBOW"), (0, 255, 0))], [], StabFeedback.ok,
       some 90, some 180⟩ := by
  rw [runLoop, h1]
  norm_num [curlCfg, jointPass, ptsMap_elbow, h2, h3,
    rightFrame_getD.1, rightFrame_getD.2.1, rightFrame_getD.2.2.1,
    rightFrame_getD.2.2.2.1, rightFrame_getD.2.2.2.2.1,
    rightFrame_getD.2.2.2.2.2, calc_angle_right, ne_primary_stability,
    pyOrR, oDev, jcSet, upper_left_elbow, cat_left_shoulder,
    cat_left_elbow, cat_left_wrist, cat_right_shoulder, cat_right_elbow,
    cat_right_wrist]

lemma primarySideOf_ext (s : CState)
    (h2 : s.primary_joint_name = "elbow") :
    primarySideOf s frameExt = "left" := by
  simp only [primarySideOf, h2, cat_left_elbow, cat_right_elbow,
    show lmLookup frameExt ("leftelbow") = some ⟨0, 0, 1⟩ from rfl,
    show lmLookup frameExt ("rightelbow") = none from rfl,
    show visOr0 frameExt ("rightelbow") = 0 from rfl,
    show visOr0 frameExt ("leftelbow") = 1 from rfl]
  norm_num

lemma primarySideOf_right (s : CState)
    (h2 : s.primary_joint_name = "elbow") :
    primarySideOf s frameRight = "left" := by
  simp only [primarySideOf, h2, cat_left_elbow, cat_right_elbow,
    show lmLookup frameRight ("leftelbow") = some ⟨0, 0, 1⟩ from rfl,
    show lmLookup frameRight ("rightelbow") = none from rfl,
    show visOr0 frameRight ("rightelbow") = 0 from rfl,
    show visOr0 frameRight ("leftelbow") = 1 from rfl]
  norm_num

lemma c2_step1 : process_form coach2 frameExt 2 = c2ext := by
  have hacc := runLoop_ext coach2 rfl rfl rfl
  have hside := primarySideOf_ext coach2 rfl
  simp only [process_form, hacc, hside, pfMid, pfTransitions]
  norm_num [formOkOf, coach2, mkCoach, c2ext, primaryRecolor, oLE, oGE,
    oLT, oGT, pushWin, jcSet, upper_left_elbow, upper_right_elbow,
    beq_RE_LE, beq_RE_LH, stage_ne_fe, stage_ne_ef,
    List.lookup, CState.mk.injEq]

/-- C2, counterexample: after one raw elbow angle of 180 the coach is
in the extended stage; a single raw spike to 90 on the next frame
flips the stage to flexed, even though the mean of the raw angle
stream seen so far (the only smoothed value available) is 135, far
above the flex threshold 120 — the template coach transitions on the
raw per-frame angle, not on any smoothed angle. -/
theorem C2_counterexample :
    process_form coach2 frameExt 2 = c2ext ∧
    (process_form c2ext frameRight 3).stage = Stage.flexed ∧
    (process_form c2ext frameRight 3).reps = 0 ∧
    (process_form c2ext frameRight 3).current_angle = some 90 ∧
    listMean [180, 90] = 135 ∧
    c2ext.rep_flex_threshold < 135 := by
  have hacc := runLoop_right c2ext rfl rfl rfl
  have hside := primarySideOf_right c2ext rfl
  refine ⟨c2_step1, ?_, ?_, ?_, ?_, ?_⟩
  · simp only [process_form, hacc, hside, pfMid, pfTransitions]
    norm_num [formOkOf, c2ext, oLE, oGE, oLT, oGT]
  · simp only [process_form, hacc, hside, pfMid, pfTransitions]
    norm_num [formOkOf, c2ext, oLE, oGE, oLT, oGT]
  · simp only [process_form, hacc, hside, pfMid, pfTransitions]
    norm_num [formOkOf, c2ext, oLE, oGE, oLT, oGT]
  · norm_num [listMean]
  · norm_num [c2ext]

lemma trackMin_phase (s : AState) (x : ℝ) :
    (trackMin s x).phase = s.phase := by
  unfold trackMin
  split_ifs <;> rfl

lemma trackMin_th_down (s : AState) (x : ℝ) :
    (trackMin s x).th_down = s.th_down := by
  unfold trackMin
  split_ifs <;> rfl

lemma trackMin_th_up (s : AState) (x : ℝ) :
    (trackMin s x).th_up = s.th_up := by
  unfold trackMin
  split_ifs <;> rfl

lemma feedbackStep_phase (s : AState) (x : ℝ) :
    (feedbackStep s x).phase = s.phase := by
  unfold feedbackStep
  split_ifs <;> rfl

lemma transitionStep_phase (t : AState) (a : ℝ) :
    (transitionStep t a).phase =
      hystStepSpec t.phase t.th_down t.th_up HYSTERESIS_BUFFER a := by
  unfold transitionStep hystStepSpec
  split_ifs <;> rfl

lemma pfTransitions_current (t : CState) (c : Option ℝ) (ok : Bool) :
    (pfTransitions t c ok).current_angle = t.current_angle := by
  unfold pfTransitions
  dsimp only
  split_ifs <;> rfl

lemma jointPass_right_paLeft (s : CState) (lm : Lm) (acc : LoopAcc)
    (e : String × JointCfg) :
    (jointPass s lm ("right") acc e).paLeft = acc.paLeft := by
  unfold jointPass
  rcases hm : ptsMap e.1 with _ | ⟨q1, q2, q3⟩
  · simp only [hm]
  · simp only [hm,
      eq_false (show ¬ (("right" : String) = "left") from by decide),
      if_false]
    split_ifs <;> rfl

/-- C2, amended: the fixed-exercise analyzer's phase decision is
exactly the spec's simple-hysteresis rule applied to the smoothed
angle (the mean of the 7-sample window after pushing this frame's raw
angle); the template-driven coach's transition input `current_angle`
is the raw angle computed from the current frame's landmarks alone (no
angle smoothing exists in that variant — its 20-sample buffer smooths
per-frame excellence booleans). -/
theorem C2_amended :
    (∀ (s : AState) (lm : Lm),
      lmMem lm (sideOf lm ++ s.chain1) ∧ lmMem lm (sideOf lm ++ s.chain2) ∧
        lmMem lm (sideOf lm ++ s.chain3) →
      ((analyze s lm).2).phase =
        hystStepSpec s.phase s.th_down s.th_up HYSTERESIS_BUFFER
          (listMean (pushWin SMOOTHING_WINDOW s.window
            (get_angle (lmGetD lm (sideOf lm ++ s.chain1))
              (lmGetD lm (sideOf lm ++ s.chain2))
              (lmGetD lm (sideOf lm ++ s.chain3)))))) ∧
    (∀ (s : CState) (cfg : JointCfg) (lm : Lm) (ts : ℝ) (p1 p2 p3 : String),
      s.view_cfg = [(s.primary_joint_name, cfg)] →
      ptsMap s.primary_joint_name = some (p1, p2, p3) →
      primarySideOf s lm = "left" →
      ¬ ((lmGetD lm ("left" ++ p1)).vis < s.min_visibility ∨
         (lmGetD lm ("left" ++ p2)).vis < s.min_visibility ∨
         (lmGetD lm ("left" ++ p3)).vis < s.min_visibility) →
      (process_form s lm ts).current_angle =
        calc_angle (lmGetD lm ("left" ++ p1)) (lmGetD lm ("left" ++ p2))
          (lmGetD lm ("left" ++ p3))) := by
  constructor
  · intro s lm h
    simp only [analyze]
    rw [if_pos h]
    simp only [analyzeCore]
    rw [feedbackStep_phase, transitionStep_phase, trackMin_phase,
      trackMin_th_down, trackMin_th_up]
  · intro s cfg lm ts p1 p2 p3 hv hm hside hvis
    have hpa : (runLoop s lm).paLeft =
        calc_angle (lmGetD lm ("left" ++ p1)) (lmGetD lm ("left" ++ p2))
          (lmGetD lm ("left" ++ p3)) := by
      rw [runLoop, hv]
      simp only [List.foldl]
      rw [jointPass_right_paLeft]
      unfold jointPass
      dsimp only
      simp only [hm]
      rw [if_neg hvis]
      simp only [eq_self_iff_true, if_true]
      split_ifs <;> rfl
    simp only [process_form, hside]
    rw [pfTransitions_current]
    show (if ("left" : String) = "left" then (runLoop s lm).paLeft
      else (runLoop s lm).paRight) = _
    rw [if_pos rfl, hpa]

/-- C2, witness: the squat analyzer on a full low-visibility chain
(membership holds regardless of visibility), and the one-joint curl
coach on a fully visible extended arm. -/
theorem C2_amended_witness :
    ((analyze squatAnalyzer lmLowVisFlexed).2).phase =
      hystStepSpec squatAnalyzer.phase squatAnalyzer.th_down
        squatAnalyzer.th_up HYSTERESIS_BUFFER
        (listMean (pushWin SMOOTHING_WINDOW squatAnalyzer.window
          (get_angle
            (lmGetD lmLowVisFlexed (sideOf lmLowVisFlexed ++ squatAnalyzer.chain1))
            (lmGetD lmLowVisFlexed (sideOf lmLowVisFlexed ++ squatAnalyzer.chain2))
            (lmGetD lmLowVisFlexed (sideOf lmLowVisFlexed ++ squatAnalyzer.chain3))))) ∧
    (process_form coach2 frameExt 5).current_angle =
      calc_angle (lmGetD frameExt ("left" ++ "shoulder"))
        (lmGetD frameExt ("left" ++ "elbow"))
        (lmGetD frameExt ("left" ++ "wrist")) := by
  constructor
  · apply C2_amended.1 squatAnalyzer lmLowVisFlexed
    have hs : sideOf lmLowVisFlexed = "right" := by
      unfold sideOf
      rw [show visOr0 lmLowVisFlexed ("rightKnee") = 0.1 from rfl,
          show visOr0 lmLowVisFlexed ("leftKnee") = 0 from rfl]
      norm_num
    rw [hs]
    exact ⟨rfl, rfl, rfl⟩
  · apply C2_amended.2 coach2 ⟨some ("primary"), none, none, none⟩
      frameExt 5 ("shoulder") ("elbow") ("wrist") rfl rfl
      (primarySideOf_ext coach2 rfl)
    rw [cat_left_shoulder, cat_left_elbow, cat_left_wrist,
      extFrame_getD.1, extFrame_getD.2.1, extFrame_getD.2.2.1]
    norm_num [coach2, mkCoach]

/-! ### C1 -/

lemma phase_ne_ud : ¬ (Phase.up = Phase.down) := by decide

lemma phase_ne_du : ¬ (Phase.down = Phase.up) := by decide

lemma abs_sub_975 : |(90 : ℝ) - 97.5| = 7.5 := by
  rw [abs_sub_comm, abs_of_nonneg (by norm_num : (0:ℝ) ≤ 97.5 - 90)]
  norm_num

lemma abs_neg_75 : |(-7.5 : ℝ)| = 7.5 := by
  rw [abs_neg, abs_of_nonneg (by norm_num : (0:ℝ) ≤ (7.5:ℝ))]

lemma abs_15_2 : |(15 : ℝ) / 2| = 15 / 2 :=
  abs_of_nonneg (by norm_num)

set_option maxHeartbeats 1600000 in
/-- C1, amended scenario A: feeding the angle stream
180,170,120,100,90,100,120,165,180 to the squat analyzer as the
transition input yields the phase stream
up,up,up,down,down,down,down,down,up — the sample 165 leaves the phase
down because re-entering up requires an angle strictly above
160 + 5 — with one counted rep whose quality, scored from
minAngle 90, is max(80, 100 - 2·7.5) = 85. -/
theorem C1_scenario :
    phaseTrace squatAnalyzer scenarioAngles = actualPhases ∧
    (coreRun squatAnalyzer scenarioAngles).reps = 1 ∧
    (coreRun squatAnalyzer scenarioAngles).rep_quality = [85] := by
  refine ⟨?_, ?_, ?_⟩ <;>
    norm_num [phaseTrace, coreRun, scenarioAngles, actualPhases,
      List.foldl, analyzeCore, trackMin, transitionStep, feedbackStep,
      calculate_rep_quality, squatAnalyzer, HYSTERESIS_BUFFER,
      phase_ne_ud, phase_ne_du, min_def, max_def, abs_sub_975, abs_neg_75,
      abs_15_2]

set_option maxHeartbeats 1600000 in
/-- C1, counterexample: the phase stream the analyzer actually
produces for scenario A differs from the claimed one — at the sample
165 the code's strict comparison 165 > 160 + 5 fails, so the eighth
phase is down, not up. -/
theorem C1_counterexample :
    phaseTrace squatAnalyzer scenarioAngles ≠ claimedPhases ∧
    phaseTrace squatAnalyzer scenarioAngles = actualPhases := by
  have h : phaseTrace squatAnalyzer scenarioAngles = actualPhases := by
    norm_num [phaseTrace, scenarioAngles, actualPhases,
      List.foldl, analyzeCore, trackMin, transitionStep, feedbackStep,
      calculate_rep_quality, squatAnalyzer, HYSTERESIS_BUFFER,
      phase_ne_ud, phase_ne_du, min_def, max_def, abs_sub_975, abs_neg_75,
      abs_15_2]
  refine ⟨?_, h⟩
  rw [h]
  decide

/-! ### C4 and C8 counterexamples -/

/-- C4, counterexample: a squat frame whose hip, knee and ankle are
all present but carry visibility 0 — far below the 0.6 floor, hence
"insufficient" in the claim's sense — is processed normally by the
fixed-exercise analyzer: the output is READY (not POSITION YOURSELF)
and the session state mutates (the smoothing window, empty before the
call, now holds the computed angle 180). -/
theorem C4_counterexample :
    visOr0 lmLowVis ("rightHip") = 0 ∧
    visOr0 lmLowVis ("rightKnee") = 0 ∧
    visOr0 lmLowVis ("rightAnkle") = 0 ∧
    ((analyze squatAnalyzer lmLowVis).1).status = "READY" ∧
    ((analyze squatAnalyzer lmLowVis).2).window = [180] ∧
    squatAnalyzer.window = [] := by
  have hside : sideOf lmLowVis = "right" := by
    unfold sideOf
    rw [show visOr0 lmLowVis ("rightKnee") = 0 from rfl,
        show visOr0 lmLowVis ("leftKnee") = 0 from rfl]
    norm_num
  have hang : get_angle (lmGetD lmLowVis ("right" ++ "Hip"))
      (lmGetD lmLowVis ("right" ++ "Knee"))
      (lmGetD lmLowVis ("right" ++ "Ankle")) = 180 := by
    rw [show lmGetD lmLowVis ("right" ++ "Hip") = ⟨0, 1, 0⟩ from rfl,
        show lmGetD lmLowVis ("right" ++ "Knee") = ⟨0, 0, 0⟩ from rfl,
        show lmGetD lmLowVis ("right" ++ "Ankle") = ⟨0, -1, 0⟩ from rfl]
    exact get_angle_opp 0 0 0
  refine ⟨rfl, rfl, rfl, ?_, ?_, rfl⟩ <;>
  · simp only [analyze, hside]
    rw [if_pos (show lmMem lmLowVis ("right" ++ squatAnalyzer.chain1) ∧
      lmMem lmLowVis ("right" ++ squatAnalyzer.chain2) ∧
      lmMem lmLowVis ("right" ++ squatAnalyzer.chain3) from ⟨rfl, rfl, rfl⟩)]
    norm_num [hang, analyzeCore, trackMin, transitionStep, feedbackStep,
      squatAnalyzer, HYSTERESIS_BUFFER, SMOOTHING_WINDOW, pushWin,
      listMean, phase_ne_ud, phase_ne_du, min_def]

/-- C8, counterexample: a squat frame whose hip, knee and ankle all
carry visibility 0.1 — every defining landmark below the 0.6 floor —
still has its knee angle computed and used by the fixed-exercise
analyzer: the fully-flexed geometry (angle 0) drives an up-to-down
phase transition on this very frame. -/
theorem C8_counterexample :
    visOr0 lmLowVisFlexed ("rightHip") < (0.6 : ℝ) ∧
    visOr0 lmLowVisFlexed ("rightKnee") < (0.6 : ℝ) ∧
    visOr0 lmLowVisFlexed ("rightAnkle") < (0.6 : ℝ) ∧
    ((analyze squatAnalyzer lmLowVisFlexed).2).phase = Phase.down ∧
    ((analyze squatAnalyzer lmLowVisFlexed).1).angle = 0 := by
  have hside : sideOf lmLowVisFlexed = "right" := by
    unfold sideOf
    rw [show visOr0 lmLowVisFlexed ("rightKnee") = 0.1 from rfl,
        show visOr0 lmLowVisFlexed ("leftKnee") = 0 from rfl]
    norm_num
  have hang : get_angle
      (lmGetD lmLowVisFlexed ("right" ++ "Hip"))
      (lmGetD lmLowVisFlexed ("right" ++ "Knee"))
      (lmGetD lmLowVisFlexed ("right" ++ "Ankle")) = 0 := by
    rw [show lmGetD lmLowVisFlexed ("right" ++ "Hip") =
          ⟨0, 1, 0.1⟩ from rfl,
        show lmGetD lmLowVisFlexed ("right" ++ "Knee") =
          ⟨0, 0, 0.1⟩ from rfl,
        show lmGetD lmLowVisFlexed ("right" ++ "Ankle") =
          ⟨0, 1, 0.1⟩ from rfl]
    exact get_angle_same 0.1 0.1 0.1
  refine ⟨by
      rw [show visOr0 lmLowVisFlexed ("rightHip") = 0.1 from rfl]
      norm_num,
    by
      rw [show visOr0 lmLowVisFlexed ("rightKnee") = 0.1 from rfl]
      norm_num,
    by
      rw [show visOr0 lmLowVisFlexed ("rightAnkle") = 0.1 from rfl]
      norm_num,
    ?_, ?_⟩ <;>
  · simp only [analyze, hside]
    rw [if_pos (show lmMem lmLowVisFlexed ("right" ++ squatAnalyzer.chain1) ∧
      lmMem lmLowVisFlexed ("right" ++ squatAnalyzer.chain2) ∧
      lmMem lmLowVisFlexed ("right" ++ squatAnalyzer.chain3) from
        ⟨rfl, rfl, rfl⟩)]
    norm_num [hang, analyzeCore, trackMin, transitionStep, feedbackStep,
      squatAnalyzer, HYSTERESIS_BUFFER, SMOOTHING_WINDOW, pushWin,
      listMean, round1, phase_ne_ud, phase_ne_du, min_def]

/-! ### C8, amended part -/

lemma ptsMap_domain (a : String) (h : ptsMap a ≠ none) :
    a = "elbow" ∨ a = "shoulder" ∨ a = "hip" ∨ a = "knee" ∨
      a = "ankle" := by
  unfold ptsMap at h
  split_ifs at h with h1 h2 h3 h4 h5
  · exact Or.inl h1
  · exact Or.inr (Or.inl h2)
  · exact Or.inr (Or.inr (Or.inl h3))
  · exact Or.inr (Or.inr (Or.inr (Or.inl h4)))
  · exact Or.inr (Or.inr (Or.inr (Or.inr h5)))
  · exact absurd rfl h

lemma upper_inj_on_joints (a b : String) (ha : ptsMap a ≠ none)
    (hb : ptsMap b ≠ none) (hu : upperStr a = upperStr b) : a = b := by
  rcases ptsMap_domain a ha with rfl | rfl | rfl | rfl | rfl <;>
    rcases ptsMap_domain b hb with rfl | rfl | rfl | rfl | rfl <;>
    revert hu <;> decide

lemma key_cancel (w u v : String) (h : w ++ "_" ++ u = w ++ "_" ++ v) :
    u = v := by
  have h2 := congrArg String.data h
  simp only [String.data_append] at h2
  exact String.ext (List.append_cancel_left h2)

lemma left_right_key_ne2 (u v : String) :
    upperStr ("left") ++ "_" ++ u ≠ upperStr ("right") ++ "_" ++ v := by
  rw [show upperStr ("left") = "LEFT" from by decide,
      show upperStr ("right") = "RIGHT" from by decide]
  intro h
  have h2 := congrArg String.data h
  simp [String.data_append] at h2

lemma right_left_key_ne2 (u v : String) :
    upperStr ("right") ++ "_" ++ u ≠ upperStr ("left") ++ "_" ++ v := by
  rw [show upperStr ("left") = "LEFT" from by decide,
      show upperStr ("right") = "RIGHT" from by decide]
  intro h
  have h2 := congrArg String.data h
  simp [String.data_append] at h2

lemma jointPass_lookup_none (s : CState) (lm : Lm) (side : String)
    (acc : LoopAcc) (e : String × JointCfg) (key : String)
    (hacc : List.lookup key acc.colors = none)
    (h : ∀ p1 p2 p3, ptsMap e.1 = some (p1, p2, p3) →
      ((lmGetD lm (side ++ p1)).vis < s.min_visibility ∨
       (lmGetD lm (side ++ p2)).vis < s.min_visibility ∨
       (lmGetD lm (side ++ p3)).vis < s.min_visibility) ∨
      upperStr side ++ "_" ++ upperStr e.1 ≠ key) :
    List.lookup key (jointPass s lm side acc e).colors = none := by
  unfold jointPass
  rcases hm : ptsMap e.1 with _ | ⟨p1, p2, p3⟩
  · simp only [hm]
    exact hacc
  · simp only [hm]
    by_cases hvis : (lmGetD lm (side ++ p1)).vis < s.min_visibility ∨
      (lmGetD lm (side ++ p2)).vis < s.min_visibility ∨
      (lmGetD lm (side ++ p3)).vis < s.min_visibility
    · rw [if_pos hvis]
      exact hacc
    · rw [if_neg hvis]
      have hk : key ≠ upperStr side ++ "_" ++ upperStr e.1 := by
        rcases h p1 p2 p3 hm with hv | hk
        · exact absurd hv hvis
        · exact Ne.symm hk
      split_ifs <;> rw [lookup_jcSet_other _ _ _ _ hk] <;> exact hacc

lemma foldl_lookup_none (s : CState) (lm : Lm) (side : String) :
    ∀ (l : List (String × JointCfg)) (acc : LoopAcc) (key : String),
      List.lookup key acc.colors = none →
      (∀ e ∈ l, ∀ p1 p2 p3, ptsMap e.1 = some (p1, p2, p3) →
        ((lmGetD lm (side ++ p1)).vis < s.min_visibility ∨
         (lmGetD lm (side ++ p2)).vis < s.min_visibility ∨
         (lmGetD lm (side ++ p3)).vis < s.min_visibility) ∨
        upperStr side ++ "_" ++ upperStr e.1 ≠ key) →
      List.lookup key ((l.foldl (jointPass s lm side) acc)).colors =
        none := by
  intro l
  induction l with
  | nil => intro acc key hacc _; exact hacc
  | cons e t ih =>
    intro acc key hacc hl
    rw [List.foldl_cons]
    exact ih _ key
      (jointPass_lookup_none s lm side acc e key hacc
        (hl e (List.mem_cons_self _ _)))
      (fun g hg => hl g (List.mem_cons_of_mem _ hg))

lemma jointPass_excellent (s : CState) (lm : Lm) (side : String)
    (acc : LoopAcc) (e : String × JointCfg) :
    ((jointPass s lm side acc e).excellent = true ↔
      acc.excellent = true ∧ ¬ entryViolates s lm side e) := by
  unfold jointPass
  rcases hm : ptsMap e.1 with _ | ⟨p1, p2, p3⟩
  · simp [entryViolates, hm]
  · by_cases hvis : (lmGetD lm (side ++ p1)).vis < s.min_visibility ∨
      (lmGetD lm (side ++ p2)).vis < s.min_visibility ∨
      (lmGetD lm (side ++ p3)).vis < s.min_visibility
    · simp only [hm]
      rw [if_pos hvis]
      have hnv : ¬ entryViolates s lm side e := by
        rintro ⟨q1, q2, q3, hq, hqv, -, -⟩
        rw [hm, Option.some_inj] at hq
        injection hq with h1 h23
        injection h23 with h2 h3
        subst h1; subst h2; subst h3
        exact hqv hvis
      simp [hnv]
    · simp only [hm]
      rw [if_neg hvis]
      by_cases hstab : e.2.ctype = some "stability" ∧
        oDev (calc_angle (lmGetD lm (side ++ p1)) (lmGetD lm (side ++ p2))
            (lmGetD lm (side ++ p3)))
          (pyOrR e.2.target (pyOrR e.2.upright 180))
          (pyOrR e.2.max_deviation 15)
      · rw [if_pos hstab]
        constructor
        · intro h
          simp at h
        · rintro ⟨-, hnv⟩
          exact absurd ⟨p1, p2, p3, hm, hvis, hstab.1, hstab.2⟩ hnv
      · rw [if_neg hstab]
        have hnv : ¬ entryViolates s lm side e := by
          rintro ⟨q1, q2, q3, hq, hqv, hc, hd⟩
          rw [hm, Option.some_inj] at hq
          injection hq with h1 h23
          injection h23 with h2 h3
          subst h1; subst h2; subst h3
          exact hstab ⟨hc, hd⟩
        split_ifs <;> simp [hnv]

lemma foldl_excellent (s : CState) (lm : Lm) (side : String) :
    ∀ (l : List (String × JointCfg)) (acc : LoopAcc),
      ((l.foldl (jointPass s lm side) acc).excellent = true ↔
        acc.excellent = true ∧ ∀ e ∈ l, ¬ entryViolates s lm side e) := by
  intro l
  induction l with
  | nil => intro acc; simp
  | cons e t ih =>
    intro acc
    rw [List.foldl_cons, ih, jointPass_excellent]
    simp only [List.mem_cons]
    constructor
    · rintro ⟨⟨ha, hv⟩, ht⟩
      exact ⟨ha, fun g hg => hg.elim (fun hge => hge ▸ hv) (ht g)⟩
    · rintro ⟨ha, hall⟩
      exact ⟨⟨ha, hall e (Or.inl rfl)⟩, fun g hg => hall g (Or.inr hg)⟩

lemma pfTransitions_colors (t : CState) (c : Option ℝ) (ok : Bool) :
    (pfTransitions t c ok).joint_colors = t.joint_colors := by
  unfold pfTransitions
  dsimp only
  split_ifs <;> rfl

lemma pfTransitions_buffer (t : CState) (c : Option ℝ) (ok : Bool) :
    (pfTransitions t c ok).smoothing_buffer = t.smoothing_buffer := by
  unfold pfTransitions
  dsimp only
  split_ifs <;> rfl

lemma lookup_primaryRecolor_none (s : CState)
    (colors : List (String × Color)) (side : String) (angle : Option ℝ)
    (ok : Bool) (k : String) (hnone : List.lookup k colors = none) :
    List.lookup k (primaryRecolor s colors side angle ok) = none := by
  by_cases hk : k = upperStr side ++ "_" ++ upperStr s.primary_joint_name
  · subst hk
    simp only [primaryRecolor]
    rw [if_neg (by simp [hnone])]
    exact hnone
  · rw [lookup_primaryRecolor_other s colors side angle ok k hk]
    exact hnone

/-- C8, amended: in the template-driven coach, a (side, joint) pair
with any of its three defining landmarks below the visibility floor is
skipped: its key never appears in the produced joint colors, and the
frame-excellence verdict appended to the 20-sample window is
determined exclusively by fully-visible stability joints (the
`entryViolates` characterization requires all three landmarks to meet
the floor).  The fixed-exercise analyzer applies no visibility floor
at all (see the counterexample). -/
theorem C8_amended :
    (∀ (s : CState) (lm : Lm) (ts : ℝ) (side j p1 p2 p3 : String),
      (side = "left" ∨ side = "right") →
      ptsMap j = some (p1, p2, p3) →
      ((lmGetD lm (side ++ p1)).vis < s.min_visibility ∨
       (lmGetD lm (side ++ p2)).vis < s.min_visibility ∨
       (lmGetD lm (side ++ p3)).vis < s.min_visibility) →
      List.lookup (upperStr side ++ "_" ++ upperStr j)
        (process_form s lm ts).joint_colors = none) ∧
    (∀ (s : CState) (lm : Lm),
      ((runLoop s lm).excellent = true ↔
        (∀ e ∈ s.view_cfg, ¬ entryViolates s lm ("left") e) ∧
        (∀ e ∈ s.view_cfg, ¬ entryViolates s lm ("right") e))) ∧
    (∀ (s : CState) (lm : Lm) (ts : ℝ),
      (process_form s lm ts).smoothing_buffer =
        pushWin 20 s.smoothing_buffer (runLoop s lm).excellent) := by
  have hkey : ∀ (s : CState) (lm : Lm) (side j p1 p2 p3 : String)
      (side2 : String),
      (side = "left" ∨ side = "right") →
      (side2 = "left" ∨ side2 = "right") →
      ptsMap j = some (p1, p2, p3) →
      ((lmGetD lm (side ++ p1)).vis < s.min_visibility ∨
       (lmGetD lm (side ++ p2)).vis < s.min_visibility ∨
       (lmGetD lm (side ++ p3)).vis < s.min_visibility) →
      ∀ e ∈ s.view_cfg, ∀ q1 q2 q3, ptsMap e.1 = some (q1, q2, q3) →
        ((lmGetD lm (side2 ++ q1)).vis < s.min_visibility ∨
         (lmGetD lm (side2 ++ q2)).vis < s.min_visibility ∨
         (lmGetD lm (side2 ++ q3)).vis < s.min_visibility) ∨
        upperStr side2 ++ "_" ++ upperStr e.1 ≠
          upperStr side ++ "_" ++ upperStr j := by
    intro s lm side j p1 p2 p3 side2 hside hside2 hm hvis e _ q1 q2 q3 hq
    by_cases hss : side2 = side
    · subst hss
      by_cases hej : e.1 = j
      · rw [hej, hm, Option.some_inj] at hq
        injection hq with h1 h23
        injection h23 with h2 h3
        subst h1; subst h2; subst h3
        left
        exact hvis
      · right
        intro hk
        have hu := key_cancel (upperStr side2) (upperStr e.1) (upperStr j) hk
        exact hej (upper_inj_on_joints e.1 j (by rw [hq]; simp)
          (by rw [hm]; simp) hu)
    · right
      rcases hside2 with rfl | rfl <;> rcases hside with rfl | rfl
      · exact absurd rfl hss
      · exact left_right_key_ne2 (upperStr e.1) (upperStr j)
      · exact right_left_key_ne2 (upperStr e.1) (upperStr j)
      · exact absurd rfl hss
  refine ⟨?_, ?_, ?_⟩
  · intro s lm ts side j p1 p2 p3 hside hm hvis
    simp only [process_form]
    rw [pfTransitions_colors]
    simp only [pfMid]
    apply lookup_primaryRecolor_none
    apply lookup_primaryRecolor_none
    rw [runLoop]
    apply foldl_lookup_none
    · apply foldl_lookup_none
      · rfl
      · exact hkey s lm side j p1 p2 p3 ("left") hside (Or.inl rfl) hm hvis
    · exact hkey s lm side j p1 p2 p3 ("right") hside (Or.inr rfl) hm hvis
  · intro s lm
    rw [runLoop]
    rw [foldl_excellent, foldl_excellent]
    simp only [show (⟨true, [], [], StabFeedback.ok, some 180, some 180⟩ :
      LoopAcc).excellent = true from rfl]
    tauto
  · intro s lm ts
    simp only [process_form]
    rw [pfTransitions_buffer]
    rfl

/-- C8, witness: with an empty landmark map every landmark defaults to
visibility 0, so the left hip of the two-joint curl coach is skipped
and its key is absent from the joint colors. -/
theorem C8_amended_witness :
    List.lookup (upperStr ("left") ++ "_" ++ upperStr ("hip"))
      (process_form coach3 [] 5).joint_colors = none :=
  C8_amended.1 coach3 [] 5 ("left") ("hip") ("shoulder") ("hip")
    ("knee") (Or.inl rfl) ptsMap_hip
    (Or.inl (by
      rw [show lmGetD ([] : Lm) (("left" : String) ++ "shoulder") =
        ⟨0, 0, 0⟩ from rfl]
      norm_num [coach3, mkCoach]))

end Entrainement
